import Mathlib

/-!
Formal model of the qqa backend core (src/backend): configuration validation,
document ingestion with change detection, the memoized search cache, prompt
construction, generation-client retry behaviour, and streaming decode.  Every
definition is a shallow embedding of the corresponding Python function, with
machine-level details (file system, HTTP, JSON) abstracted into explicit
inputs so that each operation is a pure, executable Lean function.
-/

/-- Model of the Python str.join method: pyJoin sep l concatenates the
elements of l separated by sep. -/
def pyJoin (sep : String) : List String → String
  | [] => ""
  | [x] => x
  | x :: y :: xs => x ++ sep ++ pyJoin sep (y :: xs)

/-- Validation checks applied by pydantic when Settings is constructed
(src/backend/config.py): the field bounds CHUNK_SIZE in [100, 2000] and
CHUNK_OVERLAP in [0, 500], followed by the validate_chunk_overlap validator,
which fires only when the CHUNK_SIZE field itself validated (pydantic exposes
only previously valid fields in the values dict) and requires
CHUNK_OVERLAP < CHUNK_SIZE.  Each failed check contributes one error; the
load fails when any error was recorded. -/
def chunkSettingsErrors (size overlap : Int) : List String :=
  (if size < 100 ∨ 2000 < size then [("CHUNK_SIZE out of range")] else [])
    ++ (if overlap < 0 ∨ 500 < overlap then [("CHUNK_OVERLAP out of range")]
      else if (100 ≤ size ∧ size ≤ 2000) ∧ size ≤ overlap then
        [("CHUNK_OVERLAP must be less than CHUNK_SIZE")]
      else [])

/-- Settings construction succeeds exactly when no validation error was
recorded. -/
def chunkSettingsLoadOk (size overlap : Int) : Bool :=
  (chunkSettingsErrors size overlap).isEmpty

/-- Per-file ingestion metadata: the DocumentInfo dataclass of
src/backend/services/vector_store.py.  File modification times are modelled
as naturals. -/
structure DocumentInfo where
  filename : String
  filepath : String
  file_size : Nat
  file_hash : String
  ingested_at : String
  chunk_count : Nat
  last_modified : Nat
deriving Repr, DecidableEq

/-- One chunk stored in the vector index, tagged with the source filename
attached to its metadata during ingestion. -/
structure IndexChunk where
  text : String
  source : String
deriving Repr, DecidableEq

/-- State owned by VectorStoreService: the ingested_files metadata dict
(insertion ordered, as Python dicts are) and the persisted vector index
contents. -/
structure VSState where
  ingested_files : List (String × DocumentInfo)
  index : List IndexChunk
deriving Repr, DecidableEq

/-- Dict lookup on the ingested_files mapping. -/
def lookupFile (l : List (String × DocumentInfo)) (fn : String) : Option DocumentInfo :=
  (l.find? (fun p => p.1 == fn)).map (fun p => p.2)

/-- Dict assignment on the ingested_files mapping: overwrite the first entry
with this key in place when present, append otherwise (Python dicts keep
insertion order and hold each key at most once). -/
def setFile : List (String × DocumentInfo) → String → DocumentInfo →
    List (String × DocumentInfo)
  | [], fn, info => [(fn, info)]
  | p :: t, fn, info =>
    if p.1 == fn then (fn, info) :: t else p :: setFile t fn info

/-- The SUPPORTED_EXTENSIONS class attribute of VectorStoreService. -/
def SUPPORTED_EXTENSIONS : List String := [(".pdf"), (".txt"), (".md"), (".docx"), (".html")]

/-- Extensions with a registered loader in the LOADERS class attribute. -/
def LOADER_EXTENSIONS : List String := [(".txt"), (".pdf"), (".md")]

/-- Outcome of running a document loader: either the loader raised, or it
returned the list of raw document texts. -/
inductive LoadResult
  | failure (msg : String)
  | success (docs : List String)
deriving Repr, DecidableEq

/-- The only exception type raised by ingest_document: the enclosing
try/except converts every failure into DocumentProcessingException. -/
inductive IngestError
  | documentProcessing (msg : String)
deriving Repr, DecidableEq

/-- Result of ingest_document: the returned boolean or the raised typed
exception. -/
inductive IngestResult
  | ok (flag : Bool)
  | error (e : IngestError)
deriving Repr, DecidableEq

/-- Everything ingest_document reads from the outside world for one file:
name, path, extension, existence, current stat data and content hash, the
loader outcome for the current content, and whether the vector-index write
(add_documents plus persist) succeeds. -/
structure IngestInput where
  filename : String
  path : String
  ext : String
  onDisk : Bool
  size : Nat
  hash : String
  mtime : Nat
  load : LoadResult
  indexWriteOk : Bool
deriving Repr, DecidableEq

/-- Model of VectorStoreService._needs_reingestion: a file needs ingestion
when it has no stored record, or when its stored mtime, size or hash differs
from the current one. -/
def needs_reingestion (st : VSState) (inp : IngestInput) : Bool :=
  match lookupFile st.ingested_files inp.filename with
  | none => true
  | some info =>
    info.last_modified != inp.mtime || info.file_size != inp.size || info.file_hash != inp.hash

/-- Observable side effects of one ingest_document call, in order: running
the text splitter, writing chunks plus embeddings into the vector index,
persisting the index, and committing the DocumentRecord metadata. -/
inductive Effect
  | chunking
  | indexWrite
  | persistStore
  | metadataWrite
deriving Repr, DecidableEq

/-- Result, post state and effect trace of one ingest_document call. -/
structure IngestOutcome where
  result : IngestResult
  state : VSState
  trace : List Effect
deriving Repr, DecidableEq

/-- The processing body of VectorStoreService.ingest_document, reached when
the guards below fall through.  The branches mirror the source in order: a
missing loader returns False; a loader failure raises
DocumentProcessingException (the enclosing try/except wraps every exception
in that type) leaving the state untouched; empty documents or empty chunk
lists return False; a failing index write raises, leaving the state
untouched; otherwise the chunks are written to the index, the index is
persisted, and only then is the DocumentRecord stored.  The force-reingest
removal call in the source is a logged no-op (ChromaDB deletion is not
implemented), so it changes no state here.  The parameter split stands for
the text splitter obtained from _get_text_splitter, and now for the
datetime.now() timestamp. -/
def processDocument (split : List String → List String) (now : String)
    (st : VSState) (inp : IngestInput) : IngestOutcome :=
  if inp.ext ∉ LOADER_EXTENSIONS then ⟨.ok false, st, []⟩
  else
    match inp.load with
    | .failure msg => ⟨.error (.documentProcessing msg), st, []⟩
    | .success docs =>
      if docs = [] then ⟨.ok false, st, []⟩
      else
        let chunks := split docs
        if chunks = [] then ⟨.ok false, st, [.chunking]⟩
        else if inp.indexWriteOk = false then
          ⟨.error (.documentProcessing ("vector store write failed")), st, [.chunking]⟩
        else
          let info : DocumentInfo :=
            ⟨inp.filename, inp.path, inp.size, inp.hash, now, chunks.length, inp.mtime⟩
          ⟨.ok true,
            ⟨setFile st.ingested_files inp.filename info,
              st.index ++ chunks.map (fun c => ⟨c, inp.filename⟩)⟩,
            [.chunking, .indexWrite, .persistStore, .metadataWrite]⟩

/-- Model of VectorStoreService.ingest_document: unsupported extension and
missing file return False, an unchanged file (stored hash, size and mtime
all equal) is skipped with True unless force_reingest is set, and otherwise
control reaches the processing body above. -/
def ingest_document (split : List String → List String) (now : String)
    (st : VSState) (inp : IngestInput) (force : Bool) : IngestOutcome :=
  if inp.ext ∉ SUPPORTED_EXTENSIONS then ⟨.ok false, st, []⟩
  else if inp.onDisk = false then ⟨.ok false, st, []⟩
  else if force = false ∧ needs_reingestion st inp = false then ⟨.ok true, st, []⟩
  else processDocument split now st inp

/-- Number of tracked documents, as reported by get_stats. -/
def docCount (st : VSState) : Nat := st.ingested_files.length

/-- Total chunk count over all tracked documents, as reported by get_stats. -/
def totalChunkCount (st : VSState) : Nat :=
  (st.ingested_files.map (fun p => p.2.chunk_count)).sum

/-- One entry of the documents directory listing. -/
structure DirEntry where
  isFile : Bool
  input : IngestInput
deriving Repr, DecidableEq

/-- Model of VectorStoreService.ingest_all_documents: iterate the documents
directory, ingest each regular file, count the files whose ingestion
returned True, and continue (logging and skipping) when a file raises.  The
Python loop accumulates the count imperatively; the model accumulates the
same count by structural recursion over the listing. -/
def ingest_all_documents (split : List String → List String) (now : String)
    (st : VSState) : List DirEntry → Nat × VSState
  | [] => (0, st)
  | e :: rest =>
    if e.isFile then
      let out := ingest_document split now st e.input false
      let r := ingest_all_documents split now out.state rest
      match out.result with
      | .ok true => (r.1 + 1, r.2)
      | _ => r
    else ingest_all_documents split now st rest

/-- Key of the functools.lru_cache wrapper on search_documents: the raw
argument tuple (query, k, score_threshold).  Scores are modelled as
naturals. -/
structure SearchKey where
  query : String
  k : Option Nat
  score_threshold : Nat
deriving Repr, DecidableEq

/-- Combined service state for the search path: vector store state, the
lru_cache contents of search_documents (most recently used first), and a
counter of actual vector-backend similarity calls. -/
structure SysState where
  vs : VSState
  cache : List (SearchKey × List IndexChunk)
  backendCalls : Nat
deriving Repr, DecidableEq

/-- Cache lookup by key. -/
def cacheLookup (c : List (SearchKey × List IndexChunk)) (key : SearchKey) :
    Option (List IndexChunk) :=
  (c.find? (fun e => e.1 == key)).map (fun e => e.2)

/-- On a hit, functools.lru_cache moves the entry to most recently used. -/
def cachePromote (c : List (SearchKey × List IndexChunk)) (key : SearchKey) :
    List (SearchKey × List IndexChunk) :=
  match c.find? (fun e => e.1 == key) with
  | none => c
  | some e => e :: c.filter (fun x => !(x.1 == key))

/-- Results and post state of one search_documents call. -/
structure SearchOut where
  results : List IndexChunk
  state : SysState
deriving Repr, DecidableEq

/-- Model of VectorStoreService.search_documents under the lru_cache
decorator: a hit returns the memoized result without touching the backend; a
miss runs the similarity search against the current index (with post-hoc
score filtering when the threshold is positive), stores the result under the
raw argument key, evicting beyond the cache capacity, and counts one backend
call.  The parameters sim and simScore stand for the vector-backend
similarity_search and similarity_search_with_score functions, cap for
settings.CACHE_SIZE and defaultK for settings.SIMILARITY_K. -/
def search_documents (sim : List IndexChunk → String → Nat → List IndexChunk)
    (simScore : List IndexChunk → String → Nat → List (IndexChunk × Nat))
    (cap defaultK : Nat) (st : SysState)
    (query : String) (k : Option Nat) (thr : Nat) : SearchOut :=
  let key : SearchKey := ⟨query, k, thr⟩
  match cacheLookup st.cache key with
  | some v => ⟨v, { st with cache := cachePromote st.cache key }⟩
  | none =>
    let kk := k.getD defaultK
    let res :=
      if 0 < thr then
        ((simScore st.vs.index query kk).filter (fun p => thr ≤ p.2)).map (fun p => p.1)
      else sim st.vs.index query kk
    let newCache := ((key, res) :: st.cache).take cap
    ⟨res, { st with cache := newCache, backendCalls := st.backendCalls + 1 }⟩

/-- Model of VectorStoreService.clear_cache: empties the search cache. -/
def clear_cache (st : SysState) : SysState := { st with cache := [] }

/-- ingest_document lifted to the combined state: the source method mutates
only the metadata dict and the vector index, never the search cache or the
backend-call counter. -/
def ingest_document_sys (split : List String → List String) (now : String)
    (st : SysState) (inp : IngestInput) (force : Bool) : IngestResult × SysState :=
  let out := ingest_document split now st.vs inp force
  (out.result, { st with vs := out.state })

/-- One backend response to a single physical HTTP request: a 200 whose JSON
response field is body, an HTTP error status, a timeout, or a
connection-level failure. -/
inductive Resp
  | ok (body : String)
  | status (code : Nat)
  | timeout
  | connFail
deriving Repr, DecidableEq

/-- Typed failure modes of LLMService.generate_response.  The source raises
the single LLMException class with a distinct message per raise site; each
constructor stands for one of those sites. -/
inductive LLMError
  | unavailable
  | timeout
  | connectionFailed
  | modelNotFound
  | rateLimited
  | httpError (code : Nat)
deriving Repr, DecidableEq

/-- The status_forcelist configured on the session Retry strategy in
LLMService._setup_session. -/
def STATUS_FORCELIST : List Nat := [500, 502, 503, 504, 429]

/-- The default allowed methods of the urllib3 Retry class.  POST is absent,
so the transport applies status-forcelist and read-timeout retries only to
these idempotent methods; connection retries apply to every method. -/
def URLLIB3_ALLOWED_METHODS : List String :=
  [("HEAD"), ("GET"), ("PUT"), ("DELETE"), ("OPTIONS"), ("TRACE")]

/-- Whether the pooled session retries this outcome at the transport level,
per urllib3 Retry semantics with the configuration of _setup_session. -/
def sessionRetryable (method : String) (r : Resp) : Bool :=
  match r with
  | .connFail => true
  | .status c => URLLIB3_ALLOWED_METHODS.contains method && STATUS_FORCELIST.contains c
  | .timeout => URLLIB3_ALLOWED_METHODS.contains method
  | .ok _ => false

/-- One logical HTTP request through the pooled session.  beh n is the
outcome of the n-th physical request overall, ctr the physical request
counter and budget the remaining transport retries (Retry total).  Returns
the final outcome and the updated counter. -/
def sessionRequest (beh : Nat → Resp) (method : String) :
    Nat → Nat → Resp × Nat
  | ctr, 0 => (beh ctr, ctr + 1)
  | ctr, budget + 1 =>
    let r := beh ctr
    if sessionRetryable method r then sessionRequest beh method (ctr + 1) budget
    else (r, ctr + 1)

/-- settings.MAX_RETRIES (default 3), used both as the transport Retry total
and as the tenacity stop_after_attempt bound. -/
def MAX_RETRIES : Nat := 3

/-- Result of one attempt of the generate_response body. -/
inductive AttemptResult
  | ok (text : String)
  | error (e : LLMError)
deriving Repr, DecidableEq

/-- One attempt of the body of generate_response (non-streaming): check
availability, POST to the generate endpoint through the session, then map
the outcome onto the typed raise sites: Timeout, ConnectionError, HTTPError
404 (model not found), 429 (rate limited) or any other status.  Returns the
result together with the physical request counter after the attempt. -/
def generateAttempt (beh : Nat → Resp) (available : Bool) (ctr : Nat) :
    AttemptResult × Nat :=
  if available = false then (.error .unavailable, ctr)
  else
    let out := sessionRequest beh ("POST") ctr MAX_RETRIES
    match out.1 with
    | .ok body => (.ok body, out.2)
    | .timeout => (.error .timeout, out.2)
    | .connFail => (.error .connectionFailed, out.2)
    | .status c =>
      if c = 404 then (.error .modelNotFound, out.2)
      else if c = 429 then (.error .rateLimited, out.2)
      else (.error (.httpError c), out.2)

/-- The wait tenacity computes after failed attempt number n:
wait_exponential with multiplier 1, min 4 and max 10. -/
def tenacityWait (n : Nat) : Nat := min 10 (max 4 (2 ^ n))

/-- Final outcome of generate_response under the tenacity retry decorator:
either some attempt succeeded, or every attempt failed and tenacity raises
RetryError wrapping the last exception (reraise defaults to False). -/
inductive GenOutcome
  | ok (text : String)
  | retryError (last : LLMError)
deriving Repr, DecidableEq

/-- Outcome, recorded backoff waits, and total physical request count of one
generate_response call. -/
structure GenRun where
  outcome : GenOutcome
  waits : List Nat
  posts : Nat
deriving Repr, DecidableEq

/-- The tenacity retry loop wrapped around generate_response:
stop_after_attempt bounds the attempts, any exception whatsoever triggers a
retry while attempts remain, and the exponential waits are recorded.
attemptNo is the 1-based number of the current attempt, left the number of
attempts still allowed. -/
def generateLoop (beh : Nat → Resp) (available : Bool) :
    Nat → Nat → Nat → GenRun
  | _, 0, ctr => ⟨.retryError .unavailable, [], ctr⟩
  | _, 1, ctr =>
    match generateAttempt beh available ctr with
    | (.ok s, c) => ⟨.ok s, [], c⟩
    | (.error e, c) => ⟨.retryError e, [], c⟩
  | attemptNo, n + 2, ctr =>
    match generateAttempt beh available ctr with
    | (.ok s, c) => ⟨.ok s, [], c⟩
    | (.error _, c) =>
      let rest := generateLoop beh available (attemptNo + 1) (n + 1) c
      ⟨rest.outcome, tenacityWait attemptNo :: rest.waits, rest.posts⟩

/-- Model of LLMService.generate_response in non-streaming mode under its
retry decorator, starting from attempt 1 with MAX_RETRIES attempts allowed
and no physical requests issued yet. -/
def generate_response (beh : Nat → Resp) (available : Bool) : GenRun :=
  generateLoop beh available 1 MAX_RETRIES 0

/-- One line of the newline-delimited streaming body as seen by
_handle_streaming_response: a falsy (empty) line, a line that fails JSON
decoding, or a decoded object with its optional response field and done
flag. -/
inductive StreamLine
  | emptyLine
  | badLine
  | goodLine (response : Option String) (done : Bool)
deriving Repr, DecidableEq

/-- How the streaming generator ends: normal completion (done flag seen or
connection ended) or the typed LLMException raised after too many decode
errors. -/
inductive StreamEnd
  | completed
  | failed (msg : String)
deriving Repr, DecidableEq

/-- The max_decode_errors constant of _handle_streaming_response. -/
def MAX_DECODE_ERRORS : Nat := 5

/-- Model of LLMService._handle_streaming_response: returns the fragments
yielded in order together with the way the stream ends.  Empty lines are
skipped; a decoded line yields its response field when present and stops
the stream when its done flag is set; a decode failure is counted and the
stream fails with the typed error when the count reaches
MAX_DECODE_ERRORS, otherwise the bad line is skipped.  errs is the decode
error count so far. -/
def handleStream : Nat → List StreamLine → List String × StreamEnd
  | _, [] => ([], .completed)
  | errs, .emptyLine :: rest => handleStream errs rest
  | errs, .goodLine r d :: rest =>
    let fr := match r with
      | some s => [s]
      | none => []
    if d then (fr, .completed)
    else
      let out := handleStream errs rest
      (fr ++ out.1, out.2)
  | errs, .badLine :: rest =>
    if MAX_DECODE_ERRORS ≤ errs + 1 then
      ([], .failed ("Too many streaming decode errors"))
    else handleStream (errs + 1) rest

/-- True when the line is a decode failure. -/
def isBadLine : StreamLine → Bool
  | .badLine => true
  | _ => false

/-- True when the line is a decoded object whose done flag is set. -/
def isDoneLine : StreamLine → Bool
  | .goodLine _ d => d
  | _ => false

/-- The response fields of the decoded lines, in order. -/
def goodFragments (lines : List StreamLine) : List String :=
  lines.filterMap (fun l =>
    match l with
    | .goodLine (some s) _ => some s
    | _ => none)

/-- Characters removed by RAGService._sanitize_input: the control characters
of the pattern x00-x08, x0B, x0C, x0E-x1F, x7F.  Newline, tab and carriage
return survive. -/
def isRemovedControl (c : Char) : Bool :=
  decide ((c.toNat ≤ 8) ∨ c.toNat = 11 ∨ c.toNat = 12
    ∨ (14 ≤ c.toNat ∧ c.toNat ≤ 31) ∨ c.toNat = 127)

/-- Emission of a completed newline run: runs of three or more newlines
collapse to exactly two, matching the regex substitution in
_sanitize_input. -/
def emitNewlines (n : Nat) : List Char :=
  List.replicate (if 3 ≤ n then 2 else n) '\n'

/-- Collapse every maximal run of three or more newlines to two; pending
counts the newline run currently being read. -/
def collapseNewlines : Nat → List Char → List Char
  | pending, [] => emitNewlines pending
  | pending, c :: cs =>
    if c = '\n' then collapseNewlines (pending + 1) cs
    else emitNewlines pending ++ (c :: collapseNewlines 0 cs)

/-- Python str.strip whitespace restricted to the characters that can remain
after control-character removal: space, tab, newline, carriage return. -/
def isPyWhitespace (c : Char) : Bool :=
  c == ' ' || c == '\t' || c == '\n' || c == '\r'

/-- Strip the whitespace at both ends of a character list. -/
def pyStrip (l : List Char) : List Char :=
  ((l.dropWhile isPyWhitespace).reverse.dropWhile isPyWhitespace).reverse

/-- Model of RAGService._sanitize_input: remove the control characters,
collapse runs of three or more newlines to two, and strip surrounding
whitespace. -/
def sanitize_input (s : String) : String :=
  ⟨pyStrip (collapseNewlines 0 (s.data.filter (fun c => !isRemovedControl c)))⟩

/-- Python str.capitalize: first character upper-cased, the rest
lower-cased. -/
def pyCapitalize (s : String) : String :=
  match s.data with
  | [] => ""
  | c :: cs => ⟨c.toUpper :: cs.map Char.toLower⟩

/-- One chat history message dict, with its optional type and content
entries. -/
structure ChatMsg where
  type : Option String
  content : Option String
deriving Repr, DecidableEq

/-- Model of RAGService._format_user_context: every non-None value becomes
key: sanitized-value, joined by commas.  The dict is modelled as an
insertion-ordered association list with values already converted by str. -/
def format_user_context (uc : List (String × Option String)) : String :=
  pyJoin (", ") (uc.filterMap (fun kv =>
    kv.2.map (fun v => kv.1 ++ (": ") ++ sanitize_input v)))

/-- Model of RAGService._format_chat_history: the last ten messages, each
rendered as Type: content with the type capitalized (defaulting to user)
and the content sanitized; messages whose sanitized content is empty are
dropped. -/
def format_chat_history (ch : List ChatMsg) : String :=
  pyJoin ("\n") ((ch.drop (ch.length - 10)).filterMap (fun m =>
    let c := sanitize_input (m.content.getD (""))
    if c = "" then none
    else some (pyCapitalize (m.type.getD ("user")) ++ (": ") ++ c)))

/-- The visible truncation marker appended by _build_prompt. -/
def TRUNCATION_MARKER : String := "...[truncated]"

/-- First truncation in _build_prompt: context longer than
max_context_length characters is cut to that many characters and the marker
is appended. -/
def truncateContext (maxContext : Nat) (docs : String) : String :=
  if maxContext < docs.length then ⟨docs.data.take maxContext⟩ ++ TRUNCATION_MARKER
  else docs

/-- Python slicing s[:k] with a possibly negative k: a negative index counts
from the end and the result is clamped to the string bounds. -/
def pyTakeInt (s : String) (k : Int) : String :=
  let L : Int := s.length
  let k1 : Int := if k < 0 then L + k else k
  ⟨s.data.take (max 0 (min L k1)).toNat⟩

/-- Python list.insert at a nonnegative index. -/
def pyInsertAt (i : Nat) (x : String) (l : List String) : List String :=
  l.take i ++ x :: l.drop i

/-- Python str.startswith. -/
def pyStartsWith (s p : String) : Bool := p.data.isPrefixOf s.data

/-- The three leading optional sections appended by _build_prompt: System,
User Profile and Chat History, each omitted when its gate fails or its
processed text is empty, in source order. -/
def optSections (sysRaw : String) (uc : List (String × Option String))
    (ch : List ChatMsg) : List String :=
  (if sanitize_input sysRaw = "" then []
    else [("System: ") ++ sanitize_input sysRaw])
  ++ (if uc = [] then []
      else if format_user_context uc = "" then []
      else [("User Profile: ") ++ format_user_context uc])
  ++ (if ch = [] then []
      else if format_chat_history ch = "" then []
      else [("Chat History:\n") ++ format_chat_history ch])

/-- The full ordered section list assembled by _build_prompt before the
final prompt-length check: the optional sections, then the Relevant
Documents section when the sanitized and possibly truncated context is
nonempty, then always Question and Answer. -/
def promptSections (maxContext : Nat) (sysRaw docsRaw qRaw : String)
    (uc : List (String × Option String)) (ch : List ChatMsg) : List String :=
  let docs := truncateContext maxContext (sanitize_input docsRaw)
  optSections sysRaw uc ch
    ++ (if docs = "" then [] else [("Relevant Documents:\n") ++ docs])
    ++ [("Question: ") ++ sanitize_input qRaw, ("Answer:")]

/-- The section list after the final prompt-length check of _build_prompt:
when the assembled prompt exceeds max_prompt_length and the documents text
is longer than the excess, the Relevant Documents section is removed, the
documents text is re-cut by Python slicing to length len - excess - 100
with the marker appended, and the new section is inserted two places before
the end, directly before Question; otherwise the sections are returned
unchanged. -/
def buildSections (maxContext maxPrompt : Nat) (sysRaw docsRaw qRaw : String)
    (uc : List (String × Option String)) (ch : List ChatMsg) : List String :=
  let docs := truncateContext maxContext (sanitize_input docsRaw)
  let sections := promptSections maxContext sysRaw docsRaw qRaw uc ch
  let prompt := pyJoin ("\n\n") sections
  if maxPrompt < prompt.length then
    let excess := prompt.length - maxPrompt
    if excess < docs.length then
      let newDocs := pyTakeInt docs ((docs.length : Int) - excess - 100) ++ TRUNCATION_MARKER
      let sections2 := sections.filter (fun s => !pyStartsWith s ("Relevant Documents:"))
      pyInsertAt (sections2.length - 2) (("Relevant Documents:\n") ++ newDocs) sections2
    else sections
  else sections

/-- Model of RAGService._build_prompt: the final sections joined by blank
lines. -/
def build_prompt (maxContext maxPrompt : Nat) (sysRaw docsRaw qRaw : String)
    (uc : List (String × Option String)) (ch : List ChatMsg) : String :=
  pyJoin ("\n\n") (buildSections maxContext maxPrompt sysRaw docsRaw qRaw uc ch)

/-- A retrieved langchain Document: page content plus metadata dict. -/
structure RDoc where
  page_content : String
  metadata : List (String × String)
deriving Repr, DecidableEq

/-- Python dict.get on a metadata dict. -/
def metaGet (m : List (String × String)) (key : String) : Option String :=
  (m.find? (fun p => p.1 == key)).map (fun p => p.2)

/-- One entry of the sources list produced by get_context_sections: the
source filename from the chunk metadata plus the full metadata dict. -/
structure SourceEntry where
  filename : Option String
  metadata : List (String × String)
deriving Repr, DecidableEq

/-- The context dict built by VectorStoreService.get_context_sections. -/
structure ContextSections where
  retrieved_docs : String
  retrieved_chunks : List String
  sources : List SourceEntry
deriving Repr, DecidableEq

/-- Model of VectorStoreService.get_context_sections with include_scores
false: the retrieved documents joined by blank lines, the raw chunk list,
and one source entry per retrieved document.  The documents argument is the
list returned by search_documents. -/
def get_context_sections (documents : List RDoc) : ContextSections :=
  { retrieved_docs := pyJoin ("\n\n") (documents.map (fun d => d.page_content)),
    retrieved_chunks := documents.map (fun d => d.page_content),
    sources := documents.map (fun d => ⟨metaGet d.metadata ("source"), d.metadata⟩) }

/-- The result dict assembled by RAGService.query. -/
structure QueryResult where
  response : String
  sources : List SourceEntry
  num_sources : Nat
deriving Repr, DecidableEq

/-- Model of the success path of RAGService.query with no score threshold:
sanitize the question, retrieve the context sections, build the prompt,
call the generation client (abstracted as llm) and assemble the result; the
sources list is the one produced by get_context_sections, passed through
unchanged, and num_sources is its length. -/
def rag_query (llm : String → String) (maxContext maxPrompt : Nat)
    (retrieved : List RDoc) (systemCtx : String)
    (uc : List (String × Option String)) (ch : List ChatMsg)
    (question : String) : QueryResult :=
  let q := sanitize_input question
  let ctx := get_context_sections retrieved
  let prompt := build_prompt maxContext maxPrompt systemCtx ctx.retrieved_docs q uc ch
  { response := llm prompt,
    sources := ctx.sources,
    num_sources := ctx.sources.length }

/-- A splitter for concrete runs: one chunk per raw document. -/
def idSplit : List String → List String := fun docs => docs

/-- Stored record matching sampleUnchanged. -/
def sampleInfo : DocumentInfo :=
  ⟨("a.txt"), ("/docs/a.txt"), 3, ("h1"), ("t0"), 1, 5⟩

/-- Ingestion input for the unchanged file a.txt. -/
def sampleUnchanged : IngestInput :=
  ⟨("a.txt"), ("/docs/a.txt"), (".txt"), true, 3, ("h1"), 5, .success [("abc")], true⟩

/-- State in which a.txt is tracked with a record matching the file on
disk. -/
def sampleState : VSState := ⟨[(("a.txt"), sampleInfo)], [⟨("abc"), ("a.txt")⟩]⟩

/-- Input for a.txt after its content changed relative to sampleInfo. -/
def sampleChanged : IngestInput :=
  ⟨("a.txt"), ("/docs/a.txt"), (".txt"), true, 4, ("h2"), 6, .success [("abcd")], true⟩

/-- Input for a new file whose loader raises. -/
def sampleBroken : IngestInput :=
  ⟨("b.txt"), ("/docs/b.txt"), (".txt"), true, 9, ("h9"), 9, .failure ("parse error"), true⟩

/-- Input with an unsupported extension. -/
def sampleUnsupported : IngestInput :=
  ⟨("c.exe"), ("/docs/c.exe"), (".exe"), true, 9, ("h9"), 9, .success [("x")], true⟩

/-- Input for a fresh file b.txt, used in the cache runs. -/
def sampleNewFile : IngestInput :=
  ⟨("b.txt"), ("/docs/b.txt"), (".txt"), true, 4, ("h2"), 7, .success [("beta")], true⟩

/-- Concrete similarity backend for the runs: the first k index chunks. -/
def sampleSim : List IndexChunk → String → Nat → List IndexChunk := fun idx _ k => idx.take k

/-- Concrete scored similarity backend for the runs. -/
def sampleSimScore : List IndexChunk → String → Nat → List (IndexChunk × Nat) :=
  fun idx _ k => (idx.take k).map (fun c => (c, 1))

/-- Starting combined state for the cache runs: one indexed chunk, empty
cache, no backend calls yet. -/
def c2State0 : SysState := ⟨⟨[], [⟨("alpha"), ("a.txt")⟩]⟩, [], 0⟩

/-- First search: a cache miss that calls the backend. -/
def c2Search1 : SearchOut :=
  search_documents sampleSim sampleSimScore 1000 5 c2State0 ("q") none 0

/-- A successful ingest of the fresh file b.txt after the first search. -/
def c2AfterIngest : SysState :=
  (ingest_document_sys idSplit ("t1") c2Search1.state sampleNewFile false).2

/-- Second search with identical arguments after the successful ingest. -/
def c2Search2 : SearchOut :=
  search_documents sampleSim sampleSimScore 1000 5 c2AfterIngest ("q") none 0

/-- Section layout stated by the specification, as amended: the sections
appear in the fixed order System, User Profile, Chat History, Relevant
Documents, Question, Answer; each of the first four is present exactly when
its processed text is nonempty; Question and Answer are always present.
This definition follows the wording of the claim (amended) and is compared
against the source-derived buildSections. -/
def specSectionList (sys user hist docs q : String) : List String :=
  (if sys = "" then [] else [("System: ") ++ sys])
    ++ (if user = "" then [] else [("User Profile: ") ++ user])
    ++ (if hist = "" then [] else [("Chat History:\n") ++ hist])
    ++ (if docs = "" then [] else [("Relevant Documents:\n") ++ docs])
    ++ [("Question: ") ++ q, ("Answer:")]

/-- Two retrieved chunks that both come from the file a.txt. -/
def dupDocs : List RDoc :=
  [⟨("chunk one"), [(("source"), ("a.txt")), (("page"), ("1"))]⟩,
   ⟨("chunk two"), [(("source"), ("a.txt")), (("page"), ("2"))]⟩]

/-- A clean documents text of exactly 200 characters. -/
def docs200 : String := ("abcdefghijabcdefghijabcdefghijabcdefghijabcdefghijabcdefghijabcdefghijabcdefghijabcdefghijabcdefghijabcdefghijabcdefghijabcdefghijabcdefghijabcdefghijabcdefghijabcdefghijabcdefghijabcdefghijabcdefghij")

/-- A backend that answers 404 to every request. -/
def beh404 : Nat → Resp := fun _ => .status 404

/-- A backend on which every request times out. -/
def behTimeout : Nat → Resp := fun _ => .timeout

/-- A backend that answers 500 to every request. -/
def beh500 : Nat → Resp := fun _ => .status 500

/-- A backend that answers 500 once and then succeeds. -/
def behRecover : Nat → Resp := fun n => if n = 0 then .status 500 else .ok ("hi")

/-- Claim C9: every configuration whose chunk overlap is greater than or
equal to its chunk size fails validation at load time; a configuration whose
overlap is strictly below the chunk size passes the overlap-versus-size
check, and loads successfully when the individual field bounds also hold. -/
theorem C9_chunk_overlap_validation (size overlap : Int) :
    (size ≤ overlap → chunkSettingsLoadOk size overlap = false)
    ∧ (100 ≤ size → size ≤ 2000 → 0 ≤ overlap → overlap ≤ 500 → overlap < size →
        chunkSettingsLoadOk size overlap = true)
    ∧ (overlap < size →
        ("CHUNK_OVERLAP must be less than CHUNK_SIZE") ∉ chunkSettingsErrors size overlap) := by
  refine ⟨?_, ?_, ?_⟩
  · intro h
    unfold chunkSettingsLoadOk chunkSettingsErrors
    split_ifs with h1 h2 h3 <;> simp_all
  · intro h1 h2 h3 h4 h5
    unfold chunkSettingsLoadOk chunkSettingsErrors
    split_ifs with g1 g2 g3 <;> simp_all <;> omega
  · intro h
    unfold chunkSettingsErrors
    split_ifs with g1 g2 g3 <;> simp_all <;> omega

/-- Concrete instances of claim C9: overlap 500 with size 500 is rejected,
overlap 100 with size 500 is accepted, and the overlap-versus-size error is
absent whenever overlap is below size. -/
theorem C9_chunk_overlap_validation_witness :
    chunkSettingsLoadOk 500 500 = false
    ∧ chunkSettingsLoadOk 500 100 = true
    ∧ ("CHUNK_OVERLAP must be less than CHUNK_SIZE") ∉ chunkSettingsErrors 500 100 :=
  ⟨(C9_chunk_overlap_validation 500 500).1 (by norm_num),
   (C9_chunk_overlap_validation 500 100).2.1 (by norm_num) (by norm_num) (by norm_num)
     (by norm_num) (by norm_num),
   (C9_chunk_overlap_validation 500 100).2.2 (by norm_num)⟩

/-- Dict assignment followed by lookup of the same key yields the assigned
record. -/
theorem lookupFile_setFile (l : List (String × DocumentInfo)) (fn : String)
    (info : DocumentInfo) : lookupFile (setFile l fn info) fn = some info := by
  induction l with
  | nil => simp [setFile, lookupFile, List.find?_cons]
  | cons p t ih =>
    by_cases hp : (p.1 == fn) = true
    · simp [setFile, lookupFile, List.find?_cons, hp]
    · have hp2 : (p.1 == fn) = false := by simpa using hp
      simp only [setFile, hp2, Bool.false_eq_true, if_false]
      simpa [lookupFile, List.find?_cons, hp2] using ih

/-- A file reported as not needing reingestion has a stored record whose
hash, size and mtime all match the current file. -/
theorem needs_false_record (st : VSState) (inp : IngestInput)
    (h : needs_reingestion st inp = false) :
    ∃ fi, lookupFile st.ingested_files inp.filename = some fi
      ∧ fi.file_hash = inp.hash ∧ fi.file_size = inp.size
      ∧ fi.last_modified = inp.mtime := by
  unfold needs_reingestion at h
  cases hl : lookupFile st.ingested_files inp.filename with
  | none => rw [hl] at h; simp at h
  | some fi =>
    rw [hl] at h
    simp only [Bool.or_eq_false_iff] at h
    refine ⟨fi, rfl, ?_, ?_, ?_⟩
    · simpa using h.2
    · simpa using h.1.2
    · simpa using h.1.1

/-- A stored record matching the current file means no reingestion is
needed. -/
theorem record_match_needs_false (st : VSState) (inp : IngestInput)
    (fi : DocumentInfo)
    (hl : lookupFile st.ingested_files inp.filename = some fi)
    (h1 : fi.file_hash = inp.hash) (h2 : fi.file_size = inp.size)
    (h3 : fi.last_modified = inp.mtime) :
    needs_reingestion st inp = false := by
  unfold needs_reingestion
  rw [hl]
  simp [h1, h2, h3]

/-- A stored record differing in hash, size or mtime means reingestion is
needed. -/
theorem record_diff_needs_true (st : VSState) (inp : IngestInput)
    (fi : DocumentInfo)
    (hl : lookupFile st.ingested_files inp.filename = some fi)
    (hd : fi.file_hash ≠ inp.hash ∨ fi.file_size ≠ inp.size
      ∨ fi.last_modified ≠ inp.mtime) :
    needs_reingestion st inp = true := by
  unfold needs_reingestion
  rw [hl]
  rcases hd with h | h | h <;> simp [bne_iff_ne, h]

/-- The skip path of ingest_document: supported extension, file present and
no reingestion needed gives True with the state untouched and no
effects. -/
theorem ingest_skip (split : List String → List String) (now : String)
    (st : VSState) (inp : IngestInput)
    (hext : inp.ext ∈ SUPPORTED_EXTENSIONS) (hdisk : inp.onDisk = true)
    (hneed : needs_reingestion st inp = false) :
    ingest_document split now st inp false = ⟨.ok true, st, []⟩ := by
  simp [ingest_document, hext, hdisk, hneed]

/-- Exhaustive case analysis of the processing body: every branch except the
final one leaves the state untouched with an empty or chunking-only trace
and a non-True result; the final branch commits the new record after the
index write. -/
theorem processDocument_cases (split : List String → List String) (now : String)
    (st : VSState) (inp : IngestInput) :
    (∃ r, processDocument split now st inp = ⟨r, st, []⟩ ∧ r ≠ .ok true)
    ∨ (∃ r, processDocument split now st inp = ⟨r, st, [.chunking]⟩ ∧ r ≠ .ok true)
    ∨ (∃ docs, inp.load = .success docs ∧ docs ≠ [] ∧ split docs ≠ []
        ∧ inp.indexWriteOk = true
        ∧ processDocument split now st inp
          = ⟨.ok true,
              ⟨setFile st.ingested_files inp.filename
                  ⟨inp.filename, inp.path, inp.size, inp.hash, now,
                    (split docs).length, inp.mtime⟩,
                st.index ++ (split docs).map (fun c => ⟨c, inp.filename⟩)⟩,
              [.chunking, .indexWrite, .persistStore, .metadataWrite]⟩) := by
  by_cases hldr : inp.ext ∈ LOADER_EXTENSIONS
  case neg =>
    exact Or.inl ⟨.ok false, by simp [processDocument, hldr], by simp⟩
  case pos =>
  cases hload : inp.load with
  | failure msg =>
    exact Or.inl ⟨.error (.documentProcessing msg),
      by simp [processDocument, hldr, hload], by simp⟩
  | success docs =>
    by_cases hdocs : docs = []
    · exact Or.inl ⟨.ok false, by simp [processDocument, hldr, hload, hdocs], by simp⟩
    · by_cases hchunks : split docs = []
      · exact Or.inr (Or.inl ⟨.ok false,
          by simp [processDocument, hldr, hload, hdocs, hchunks], by simp⟩)
      · cases hok : inp.indexWriteOk with
        | false =>
          exact Or.inr (Or.inl ⟨.error (.documentProcessing ("vector store write failed")),
            by simp [processDocument, hldr, hload, hdocs, hchunks, hok], by simp⟩)
        | true =>
          exact Or.inr (Or.inr ⟨docs, rfl, hdocs, hchunks, rfl,
            by simp [processDocument, hldr, hload, hdocs, hchunks, hok]⟩)

/-- The full path of ingest_document: a changed (or new) supported file with
a working loader, nonempty documents and chunks, and a successful index
write, is processed and its record committed. -/
theorem ingest_full (split : List String → List String) (now : String)
    (st : VSState) (inp : IngestInput) (docs : List String)
    (hsup : inp.ext ∈ SUPPORTED_EXTENSIONS) (hldr : inp.ext ∈ LOADER_EXTENSIONS)
    (hdisk : inp.onDisk = true) (hneed : needs_reingestion st inp = true)
    (hload : inp.load = .success docs) (hdocs : docs ≠ [])
    (hchunks : split docs ≠ []) (hok : inp.indexWriteOk = true) :
    ingest_document split now st inp false =
      ⟨.ok true,
        ⟨setFile st.ingested_files inp.filename
            ⟨inp.filename, inp.path, inp.size, inp.hash, now,
              (split docs).length, inp.mtime⟩,
          st.index ++ (split docs).map (fun c => ⟨c, inp.filename⟩)⟩,
        [.chunking, .indexWrite, .persistStore, .metadataWrite]⟩ := by
  simp [ingest_document, processDocument, hsup, hldr, hdisk, hneed, hload,
    hdocs, hchunks, hok]

/-- Whenever ingest_document returns True the post state carries a record
for the file whose hash, size and mtime match the current file, and the
extension was supported with the file present. -/
theorem ingest_ok_true_cases (split : List String → List String) (now : String)
    (st : VSState) (inp : IngestInput)
    (h : (ingest_document split now st inp false).result = .ok true) :
    inp.ext ∈ SUPPORTED_EXTENSIONS ∧ inp.onDisk = true
      ∧ needs_reingestion (ingest_document split now st inp false).state inp = false := by
  by_cases hsup : inp.ext ∈ SUPPORTED_EXTENSIONS
  case neg =>
    rw [show ingest_document split now st inp false = ⟨.ok false, st, []⟩ from
      by simp [ingest_document, hsup]] at h
    simp at h
  case pos =>
  by_cases hdisk : inp.onDisk = true
  case neg =>
    have hd2 : inp.onDisk = false := by
      cases hb : inp.onDisk
      · rfl
      · exact absurd hb hdisk
    rw [show ingest_document split now st inp false = ⟨.ok false, st, []⟩ from
      by simp [ingest_document, hsup, hd2]] at h
    simp at h
  case pos =>
  by_cases hneed : needs_reingestion st inp = false
  case pos =>
    rw [ingest_skip split now st inp hsup hdisk hneed] at h ⊢
    exact ⟨hsup, hdisk, hneed⟩
  case neg =>
    have hpd : ingest_document split now st inp false = processDocument split now st inp := by
      simp [ingest_document, hsup, hdisk, hneed]
    rw [hpd] at h ⊢
    rcases processDocument_cases split now st inp with
      ⟨r, heq, hr⟩ | ⟨r, heq, hr⟩ | ⟨docs, hload, hdocs, hchunks, hok, heq⟩
    · rw [heq] at h; exact absurd h hr
    · rw [heq] at h; exact absurd h hr
    · rw [heq]
      refine ⟨hsup, hdisk, ?_⟩
      exact record_match_needs_false _ _ _
        (by simpa using lookupFile_setFile st.ingested_files inp.filename _)
        rfl rfl rfl

/-- Claim C1: with force_reingest unset, a file whose stored hash, size and
mtime all match the current file is skipped by ingest_document, which
returns True, runs no chunking and no index write, and leaves the state
(hence the document count and total chunk count) unchanged; conversely a
file whose stored record differs in hash, size or mtime is re-processed,
and on a successful run the stored record is updated to the current hash
with the new chunk count; finally, any call that returned True is followed,
on the unchanged file, by a second call that is exactly such a skip. -/
theorem C1_ingest_change_detection (split : List String → List String)
    (now now2 : String) (st : VSState) (inp : IngestInput)
    (info : DocumentInfo) (docs : List String) :
    (lookupFile st.ingested_files inp.filename = some info →
      info.file_hash = inp.hash → info.file_size = inp.size →
      info.last_modified = inp.mtime →
      inp.ext ∈ SUPPORTED_EXTENSIONS → inp.onDisk = true →
      ingest_document split now st inp false = ⟨.ok true, st, []⟩)
    ∧ (lookupFile st.ingested_files inp.filename = some info →
      (info.file_hash ≠ inp.hash ∨ info.file_size ≠ inp.size
        ∨ info.last_modified ≠ inp.mtime) →
      inp.ext ∈ SUPPORTED_EXTENSIONS → inp.ext ∈ LOADER_EXTENSIONS →
      inp.onDisk = true → inp.load = .success docs → docs ≠ [] →
      split docs ≠ [] → inp.indexWriteOk = true →
      (ingest_document split now st inp false).result = .ok true
      ∧ lookupFile (ingest_document split now st inp false).state.ingested_files
          inp.filename
        = some ⟨inp.filename, inp.path, inp.size, inp.hash, now,
            (split docs).length, inp.mtime⟩)
    ∧ ((ingest_document split now st inp false).result = .ok true →
      ingest_document split now2 (ingest_document split now st inp false).state inp false
        = ⟨.ok true, (ingest_document split now st inp false).state, []⟩) := by
  refine ⟨?_, ?_, ?_⟩
  · intro hl h1 h2 h3 hsup hdisk
    exact ingest_skip split now st inp hsup hdisk
      (record_match_needs_false st inp info hl h1 h2 h3)
  · intro hl hd hsup hldr hdisk hload hdocs hchunks hok
    have hneed := record_diff_needs_true st inp info hl hd
    rw [ingest_full split now st inp docs hsup hldr hdisk hneed hload hdocs hchunks hok]
    exact ⟨rfl, by simpa using lookupFile_setFile st.ingested_files inp.filename _⟩
  · intro h
    obtain ⟨hsup, hdisk, hneed⟩ := ingest_ok_true_cases split now st inp h
    exact ingest_skip split now2 _ inp hsup hdisk hneed

/-- Concrete instances of claim C1: the unchanged file a.txt is skipped with
the state untouched; the changed file a.txt is re-processed and its record
updated to the new hash and chunk count; and re-running ingest right after
a successful ingest of b.txt into the empty store is a pure skip. -/
theorem C1_ingest_change_detection_witness :
    (ingest_document idSplit ("t1") sampleState sampleUnchanged false
      = ⟨.ok true, sampleState, []⟩)
    ∧ ((ingest_document idSplit ("t1") sampleState sampleChanged false).result = .ok true
      ∧ lookupFile (ingest_document idSplit ("t1") sampleState sampleChanged false).state.ingested_files
          ("a.txt")
        = some ⟨("a.txt"), ("/docs/a.txt"), 4, ("h2"), ("t1"), 1, 6⟩)
    ∧ (ingest_document idSplit ("t2")
        (ingest_document idSplit ("t1") ⟨[], []⟩ sampleNewFile false).state sampleNewFile false
      = ⟨.ok true, (ingest_document idSplit ("t1") ⟨[], []⟩ sampleNewFile false).state, []⟩) := by
  refine ⟨?_, ?_, ?_⟩
  · exact (C1_ingest_change_detection idSplit ("t1") ("t1") sampleState sampleUnchanged
      sampleInfo []).1 (by decide) (by decide) (by decide) (by decide) (by decide) (by decide)
  · exact (C1_ingest_change_detection idSplit ("t1") ("t1") sampleState sampleChanged
      sampleInfo [("abcd")]).2.1 (by decide) (by decide) (by decide) (by decide) (by decide)
      (by decide) (by decide) (by decide) (by decide)
  · exact (C1_ingest_change_detection idSplit ("t1") ("t2") ⟨[], []⟩ sampleNewFile
      sampleInfo []).2.2 (by decide)

/-- Claim C3: the DocumentRecord metadata write happens only after the index
write and the persist succeeded, never before: any effect trace containing
the metadata write is exactly chunking, index write, persist, metadata
write, in that order.  And when the loader raises, ingest_document raises
the typed DocumentProcessingException and leaves the prior state untouched
with no effects performed. -/
theorem C3_metadata_commit_order (split : List String → List String)
    (now : String) (st : VSState) (inp : IngestInput) (force : Bool)
    (msg : String) :
    (Effect.metadataWrite ∈ (ingest_document split now st inp force).trace →
      (ingest_document split now st inp force).trace
        = [.chunking, .indexWrite, .persistStore, .metadataWrite])
    ∧ (inp.load = .failure msg → inp.ext ∈ SUPPORTED_EXTENSIONS →
      inp.ext ∈ LOADER_EXTENSIONS → inp.onDisk = true →
      (force = true ∨ needs_reingestion st inp = true) →
      ingest_document split now st inp force
        = ⟨.error (.documentProcessing msg), st, []⟩) := by
  constructor
  · intro h
    by_cases hsup : inp.ext ∈ SUPPORTED_EXTENSIONS
    case neg =>
      rw [show ingest_document split now st inp force = ⟨.ok false, st, []⟩ from
        by simp [ingest_document, hsup]] at h
      simp at h
    case pos =>
    by_cases hd2 : inp.onDisk = false
    case pos =>
      rw [show ingest_document split now st inp force = ⟨.ok false, st, []⟩ from
        by simp [ingest_document, hsup, hd2]] at h
      simp at h
    case neg =>
    have hdisk : inp.onDisk = true := by
      cases hb : inp.onDisk
      · exact absurd hb hd2
      · rfl
    by_cases hskip : force = false ∧ needs_reingestion st inp = false
    case pos =>
      rw [show ingest_document split now st inp force = ⟨.ok true, st, []⟩ from
        by simp [ingest_document, hsup, hdisk, hskip.1, hskip.2]] at h
      simp at h
    case neg =>
    have hpd : ingest_document split now st inp force = processDocument split now st inp := by
      simp [ingest_document, hsup, hdisk, hskip]
    rw [hpd] at h ⊢
    rcases processDocument_cases split now st inp with
      ⟨r, heq, _⟩ | ⟨r, heq, _⟩ | ⟨docs, _, _, _, _, heq⟩
    · rw [heq] at h; simp at h
    · rw [heq] at h; simp at h
    · rw [heq]
  · intro hload hsup hldr hdisk hfn
    have hns : ¬ (force = false ∧ needs_reingestion st inp = false) := by
      rcases hfn with hf | hn
      · simp [hf]
      · simp [hn]
    have hpd : ingest_document split now st inp force = processDocument split now st inp := by
      simp [ingest_document, hsup, hdisk, hns]
    rw [hpd]
    simp [processDocument, hldr, hload]

/-- Concrete instances of claim C3: for the changed file a.txt the trace is
exactly chunking, index write, persist, metadata write; and a loader
failure on the new file b.txt raises DocumentProcessingException with the
state untouched. -/
theorem C3_metadata_commit_order_witness :
    (ingest_document idSplit ("t1") sampleState sampleChanged false).trace
      = [.chunking, .indexWrite, .persistStore, .metadataWrite]
    ∧ ingest_document idSplit ("t1") sampleState sampleBroken false
      = ⟨.error (.documentProcessing ("parse error")), sampleState, []⟩ := by
  constructor
  · exact (C3_metadata_commit_order idSplit ("t1") sampleState sampleChanged false
      ("parse error")).1 (by decide)
  · exact (C3_metadata_commit_order idSplit ("t1") sampleState sampleBroken false
      ("parse error")).2 (by decide) (by decide) (by decide) (by decide)
      (Or.inr (by decide))

/-- Claim C8 counterexample: a listing holding the single unchanged file
a.txt.  ingest_document skips the file without re-processing it (empty
effect trace, state unchanged), yet ingest_all_documents reports 1, so the
returned count is not the number of files actually re-ingested. -/
theorem C8_ingest_all_counterexample :
    ingest_all_documents idSplit ("t1") sampleState [⟨true, sampleUnchanged⟩]
      = (1, sampleState)
    ∧ (ingest_document idSplit ("t1") sampleState sampleUnchanged false).trace = [] := by
  decide

/-- Claim C8 amended: ingest_all_documents skips non-file entries; a file
whose ingestion raises is logged and skipped without aborting the rest of
the batch; and the returned count counts exactly the files whose
ingest_document call returned True, which includes unchanged files skipped
by change detection and excludes files that returned False or raised. -/
theorem C8_ingest_all_amended (split : List String → List String) (now : String)
    (st : VSState) (i : IngestInput) (rest : List DirEntry) (e : IngestError) :
    ((ingest_document split now st i false).result = .error e →
      ingest_all_documents split now st (⟨true, i⟩ :: rest)
        = ingest_all_documents split now (ingest_document split now st i false).state rest)
    ∧ ((ingest_document split now st i false).result = .ok true →
      (ingest_all_documents split now st (⟨true, i⟩ :: rest)).1
        = (ingest_all_documents split now (ingest_document split now st i false).state rest).1 + 1
      ∧ (ingest_all_documents split now st (⟨true, i⟩ :: rest)).2
        = (ingest_all_documents split now (ingest_document split now st i false).state rest).2)
    ∧ ((ingest_document split now st i false).result = .ok false →
      ingest_all_documents split now st (⟨true, i⟩ :: rest)
        = ingest_all_documents split now (ingest_document split now st i false).state rest)
    ∧ (ingest_all_documents split now st (⟨false, i⟩ :: rest)
        = ingest_all_documents split now st rest) := by
  refine ⟨?_, ?_, ?_, ?_⟩
  · intro h
    simp [ingest_all_documents, h]
  · intro h
    constructor <;> simp [ingest_all_documents, h]
  · intro h
    simp [ingest_all_documents, h]
  · simp [ingest_all_documents]

/-- Concrete instances of claim C8 amended: a loader failure on b.txt is
skipped without aborting, the unchanged a.txt counts as one success, the
unsupported c.exe contributes nothing, and a directory entry is ignored. -/
theorem C8_ingest_all_amended_witness :
    (ingest_all_documents idSplit ("t1") ⟨[], []⟩ [⟨true, sampleBroken⟩]
      = ingest_all_documents idSplit ("t1")
          (ingest_document idSplit ("t1") ⟨[], []⟩ sampleBroken false).state [])
    ∧ ((ingest_all_documents idSplit ("t1") sampleState [⟨true, sampleUnchanged⟩]).1
      = (ingest_all_documents idSplit ("t1")
          (ingest_document idSplit ("t1") sampleState sampleUnchanged false).state []).1 + 1)
    ∧ (ingest_all_documents idSplit ("t1") sampleState [⟨true, sampleUnsupported⟩]
      = ingest_all_documents idSplit ("t1")
          (ingest_document idSplit ("t1") sampleState sampleUnsupported false).state [])
    ∧ (ingest_all_documents idSplit ("t1") sampleState [⟨false, sampleUnchanged⟩]
      = ingest_all_documents idSplit ("t1") sampleState []) :=
  ⟨(C8_ingest_all_amended idSplit ("t1") ⟨[], []⟩ sampleBroken []
      (.documentProcessing ("parse error"))).1 (by decide),
   ((C8_ingest_all_amended idSplit ("t1") sampleState sampleUnchanged []
      (.documentProcessing (""))).2.1 (by decide)).1,
   (C8_ingest_all_amended idSplit ("t1") sampleState sampleUnsupported []
      (.documentProcessing (""))).2.2.1 (by decide),
   (C8_ingest_all_amended idSplit ("t1") sampleState sampleUnchanged []
      (.documentProcessing (""))).2.2.2⟩

/-- Cache lookup is unchanged by the most-recently-used promotion performed
on a hit. -/
theorem cacheLookup_promote (c : List (SearchKey × List IndexChunk)) (key : SearchKey) :
    cacheLookup (cachePromote c key) key = cacheLookup c key := by
  unfold cacheLookup cachePromote
  cases hf : c.find? (fun e => e.1 == key) with
  | none => simp [hf]
  | some e =>
    have he : (e.1 == key) = true := by
      have h2 := List.find?_some hf
      simpa using h2
    simp [List.find?_cons, he, hf]

/-- Claim C2 counterexample: after the first (cached) search for the query
q, ingesting the new file b.txt succeeds and grows the index, yet the next
search with identical arguments is served from the still-live cache entry:
no backend call is made and the stale pre-ingest results are returned, and
they differ from what a fresh backend call over the updated index would
produce.  The lru cache of search_documents is never invalidated by
ingestion. -/
theorem C2_search_cache_counterexample :
    (ingest_document_sys idSplit ("t1") c2Search1.state sampleNewFile false).1 = .ok true
    ∧ c2Search2.state.backendCalls = c2Search1.state.backendCalls
    ∧ c2Search2.results = c2Search1.results
    ∧ c2Search2.results ≠ sampleSim c2AfterIngest.vs.index ("q") 5 := by
  decide

/-- Claim C2 amended: with an unchanged index, a second search_documents
call with identical arguments returns identical results from the cache
without a second backend call; a search right after clear_cache always
performs a fresh backend call; and ingestion leaves the search cache and
the backend call counter untouched (it never invalidates the cache). -/
theorem C2_search_cache_amended
    (sim : List IndexChunk → String → Nat → List IndexChunk)
    (simScore : List IndexChunk → String → Nat → List (IndexChunk × Nat))
    (cap defaultK : Nat) (st : SysState) (query : String) (k : Option Nat)
    (thr : Nat) (split : List String → List String) (now : String)
    (inp : IngestInput) (force : Bool) :
    (1 ≤ cap →
      (search_documents sim simScore cap defaultK
          (search_documents sim simScore cap defaultK st query k thr).state query k thr).results
        = (search_documents sim simScore cap defaultK st query k thr).results
      ∧ (search_documents sim simScore cap defaultK
          (search_documents sim simScore cap defaultK st query k thr).state query k thr).state.backendCalls
        = (search_documents sim simScore cap defaultK st query k thr).state.backendCalls)
    ∧ ((search_documents sim simScore cap defaultK (clear_cache st) query k thr).state.backendCalls
        = st.backendCalls + 1)
    ∧ ((ingest_document_sys split now st inp force).2.cache = st.cache
      ∧ (ingest_document_sys split now st inp force).2.backendCalls = st.backendCalls) := by
  refine ⟨?_, ?_, ?_, ?_⟩
  · intro hcap
    obtain ⟨n, rfl⟩ : ∃ n, cap = n + 1 := ⟨cap - 1, by omega⟩
    cases hf : List.find?
        (fun e => e.1 == ({ query := query, k := k, score_threshold := thr } : SearchKey))
        st.cache with
    | some e =>
      have he : (e.1 == ({ query := query, k := k, score_threshold := thr } : SearchKey)) = true := by
        have h2 := List.find?_some hf
        simpa using h2
      simp [search_documents, cacheLookup, cachePromote, hf, List.find?_cons, he]
    | none =>
      simp [search_documents, cacheLookup, hf, List.take_succ_cons, List.find?_cons]
  · simp [search_documents, clear_cache, cacheLookup]
  · simp [ingest_document_sys]
  · simp [ingest_document_sys]

/-- Concrete instance of claim C2 amended, on the initial cache state. -/
theorem C2_search_cache_amended_witness :
    ((search_documents sampleSim sampleSimScore 1000 5 c2Search1.state ("q") none 0).results
        = c2Search1.results
      ∧ (search_documents sampleSim sampleSimScore 1000 5 c2Search1.state ("q") none 0).state.backendCalls
        = c2Search1.state.backendCalls)
    ∧ ((search_documents sampleSim sampleSimScore 1000 5 (clear_cache c2State0) ("q") none 0).state.backendCalls
        = c2State0.backendCalls + 1)
    ∧ ((ingest_document_sys idSplit ("t1") c2State0 sampleNewFile false).2.cache
        = c2State0.cache) :=
  ⟨(C2_search_cache_amended sampleSim sampleSimScore 1000 5 c2State0 ("q") none 0
      idSplit ("t1") sampleNewFile false).1 (by norm_num),
   (C2_search_cache_amended sampleSim sampleSimScore 1000 5 c2State0 ("q") none 0
      idSplit ("t1") sampleNewFile false).2.1,
   ((C2_search_cache_amended sampleSim sampleSimScore 1000 5 c2State0 ("q") none 0
      idSplit ("t1") sampleNewFile false).2.2).1⟩

/-- With fewer decode failures than the bound and no done flag, the stream
yields every response fragment in order and completes at the end of the
connection. -/
theorem handleStream_no_done (lines : List StreamLine) (errs : Nat)
    (hbad : errs + lines.countP isBadLine < MAX_DECODE_ERRORS)
    (hnd : ∀ l ∈ lines, isDoneLine l = false) :
    handleStream errs lines = (goodFragments lines, .completed) := by
  induction lines generalizing errs with
  | nil => simp [handleStream, goodFragments]
  | cons l rest ih =>
    have hnd2 : ∀ x ∈ rest, isDoneLine x = false :=
      fun x hx => hnd x (List.mem_cons_of_mem _ hx)
    cases l with
    | emptyLine =>
      have hbad2 : errs + rest.countP isBadLine < MAX_DECODE_ERRORS := by
        simpa [List.countP_cons, isBadLine] using hbad
      simpa [handleStream, goodFragments, List.filterMap_cons]
        using ih errs hbad2 hnd2
    | badLine =>
      have hbad2 : (errs + 1) + rest.countP isBadLine < MAX_DECODE_ERRORS := by
        simp only [List.countP_cons, isBadLine, if_true] at hbad
        unfold MAX_DECODE_ERRORS at hbad ⊢
        omega
      have h5 : ¬ (MAX_DECODE_ERRORS ≤ errs + 1) := by
        unfold MAX_DECODE_ERRORS at hbad2 ⊢
        omega
      simpa [handleStream, h5, goodFragments, List.filterMap_cons]
        using ih (errs + 1) hbad2 hnd2
    | goodLine r d =>
      have hd : d = false := by
        have h1 := hnd _ (List.mem_cons_self _ _)
        simpa [isDoneLine] using h1
      subst hd
      have hbad2 : errs + rest.countP isBadLine < MAX_DECODE_ERRORS := by
        simpa [List.countP_cons, isBadLine] using hbad
      have hr := ih errs hbad2 hnd2
      cases r with
      | none =>
        simpa [handleStream, goodFragments, List.filterMap_cons] using hr
      | some s =>
        simp [handleStream, goodFragments, List.filterMap_cons] at hr ⊢
        simp [hr]

/-- A done flag terminates the stream at that line, after yielding its
response fragment; later lines are ignored. -/
theorem handleStream_done (pre suf : List StreamLine) (r : Option String)
    (errs : Nat)
    (hbad : errs + pre.countP isBadLine < MAX_DECODE_ERRORS)
    (hnd : ∀ l ∈ pre, isDoneLine l = false) :
    handleStream errs (pre ++ .goodLine r true :: suf)
      = (goodFragments pre ++ r.toList, .completed) := by
  induction pre generalizing errs with
  | nil =>
    cases r with
    | none => simp [handleStream, goodFragments]
    | some s => simp [handleStream, goodFragments, Option.toList]
  | cons l rest ih =>
    have hnd2 : ∀ x ∈ rest, isDoneLine x = false :=
      fun x hx => hnd x (List.mem_cons_of_mem _ hx)
    cases l with
    | emptyLine =>
      have hbad2 : errs + rest.countP isBadLine < MAX_DECODE_ERRORS := by
        simpa [List.countP_cons, isBadLine] using hbad
      simpa [handleStream, goodFragments, List.filterMap_cons]
        using ih errs hbad2 hnd2
    | badLine =>
      have hbad2 : (errs + 1) + rest.countP isBadLine < MAX_DECODE_ERRORS := by
        simp only [List.countP_cons, isBadLine, if_true] at hbad
        unfold MAX_DECODE_ERRORS at hbad ⊢
        omega
      have h5 : ¬ (MAX_DECODE_ERRORS ≤ errs + 1) := by
        unfold MAX_DECODE_ERRORS at hbad2 ⊢
        omega
      simpa [handleStream, h5, goodFragments, List.filterMap_cons]
        using ih (errs + 1) hbad2 hnd2
    | goodLine r2 d =>
      have hd : d = false := by
        have h1 := hnd _ (List.mem_cons_self _ _)
        simpa [isDoneLine] using h1
      subst hd
      have hbad2 : errs + rest.countP isBadLine < MAX_DECODE_ERRORS := by
        simpa [List.countP_cons, isBadLine] using hbad
      have hr := ih errs hbad2 hnd2
      cases r2 with
      | none =>
        simpa [handleStream, goodFragments, List.filterMap_cons] using hr
      | some s =>
        simp [handleStream, goodFragments, List.filterMap_cons] at hr ⊢
        simp [hr]

/-- Reaching the bound on decode failures fails the stream with the typed
error, keeping the fragments yielded so far. -/
theorem handleStream_fail (pre suf : List StreamLine) (errs : Nat)
    (hbad : errs + pre.countP isBadLine + 1 = MAX_DECODE_ERRORS)
    (hnd : ∀ l ∈ pre, isDoneLine l = false) :
    handleStream errs (pre ++ .badLine :: suf)
      = (goodFragments pre, .failed ("Too many streaming decode errors")) := by
  induction pre generalizing errs with
  | nil =>
    have h5 : MAX_DECODE_ERRORS ≤ errs + 1 := by
      simp [goodFragments] at hbad
      omega
    simp [handleStream, h5, goodFragments]
  | cons l rest ih =>
    have hnd2 : ∀ x ∈ rest, isDoneLine x = false :=
      fun x hx => hnd x (List.mem_cons_of_mem _ hx)
    cases l with
    | emptyLine =>
      have hbad2 : errs + rest.countP isBadLine + 1 = MAX_DECODE_ERRORS := by
        simpa [List.countP_cons, isBadLine] using hbad
      simpa [handleStream, goodFragments, List.filterMap_cons]
        using ih errs hbad2 hnd2
    | badLine =>
      have hbad2 : (errs + 1) + rest.countP isBadLine + 1 = MAX_DECODE_ERRORS := by
        simp only [List.countP_cons, isBadLine, if_true] at hbad
        omega
      have h5 : ¬ (MAX_DECODE_ERRORS ≤ errs + 1) := by
        unfold MAX_DECODE_ERRORS at hbad2 ⊢
        omega
      simpa [handleStream, h5, goodFragments, List.filterMap_cons]
        using ih (errs + 1) hbad2 hnd2
    | goodLine r2 d =>
      have hd : d = false := by
        have h1 := hnd _ (List.mem_cons_self _ _)
        simpa [isDoneLine] using h1
      subst hd
      have hbad2 : errs + rest.countP isBadLine + 1 = MAX_DECODE_ERRORS := by
        simpa [List.countP_cons, isBadLine] using hbad
      have hr := ih errs hbad2 hnd2
      cases r2 with
      | none =>
        simpa [handleStream, goodFragments, List.filterMap_cons] using hr
      | some s =>
        simp [handleStream, goodFragments, List.filterMap_cons] at hr ⊢
        simp [hr]

/-- Claim C10: the streaming handler processes the body line by line; with
fewer than five per-line decode failures and no done flag it yields every
response fragment in order and terminates when the connection ends; a line
whose done flag is set terminates the stream right after yielding that line
its fragment, ignoring everything later; and the moment the fifth decode
failure is reached the stream fails with the typed LLMException, keeping
the fragments yielded before it (bad lines before the bound are skipped). -/
theorem C10_streaming (lines pre suf : List StreamLine) (r : Option String) :
    (lines.countP isBadLine < MAX_DECODE_ERRORS →
      (∀ l ∈ lines, isDoneLine l = false) →
      handleStream 0 lines = (goodFragments lines, .completed))
    ∧ (pre.countP isBadLine < MAX_DECODE_ERRORS →
      (∀ l ∈ pre, isDoneLine l = false) →
      handleStream 0 (pre ++ .goodLine r true :: suf)
        = (goodFragments pre ++ r.toList, .completed))
    ∧ (pre.countP isBadLine + 1 = MAX_DECODE_ERRORS →
      (∀ l ∈ pre, isDoneLine l = false) →
      handleStream 0 (pre ++ .badLine :: suf)
        = (goodFragments pre, .failed ("Too many streaming decode errors"))) := by
  refine ⟨?_, ?_, ?_⟩
  · intro h1 h2
    simpa using handleStream_no_done lines 0 (by simpa using h1) h2
  · intro h1 h2
    simpa using handleStream_done pre suf r 0 (by simpa using h1) h2
  · intro h1 h2
    simpa using handleStream_fail pre suf 0 (by simpa using h1) h2

/-- Concrete instances of claim C10: a stream with one bad line yields both
fragments and completes; a done line stops the stream after its own
fragment; the fifth decode failure fails the stream with the typed error
after the earlier fragments. -/
theorem C10_streaming_witness :
    handleStream 0 [.goodLine (some ("a")) false, .badLine, .emptyLine,
        .goodLine none false, .goodLine (some ("b")) false]
      = ([("a"), ("b")], .completed)
    ∧ handleStream 0 [.goodLine (some ("x")) false, .goodLine (some ("y")) true,
        .goodLine (some ("z")) false]
      = ([("x"), ("y")], .completed)
    ∧ handleStream 0 [.badLine, .badLine, .badLine, .badLine,
        .goodLine (some ("w")) false, .badLine, .goodLine (some ("v")) false]
      = ([("w")], .failed ("Too many streaming decode errors")) :=
  ⟨(C10_streaming [.goodLine (some ("a")) false, .badLine, .emptyLine,
        .goodLine none false, .goodLine (some ("b")) false] [] [] none).1
      (by decide) (by decide),
   (C10_streaming [] [.goodLine (some ("x")) false]
        [.goodLine (some ("z")) false] (some ("y"))).2.1 (by decide) (by decide),
   (C10_streaming [] [.badLine, .badLine, .badLine, .badLine,
        .goodLine (some ("w")) false] [.goodLine (some ("v")) false] none).2.2
      (by decide) (by decide)⟩

/-- Claim C4 counterexample: with the backend answering 404 to every
request, generate_response issues three physical requests in total: the
tenacity retry decorator retries on every raised exception, including the
ModelNotFound error produced by the 404 branch, so a non-429 4xx response
is retried (and the final typed error surfaces wrapped in RetryError rather
than directly). -/
theorem C4_retry_counterexample :
    generate_response beh404 true = ⟨.retryError .modelNotFound, [4, 4], 3⟩
    ∧ 1 < (generate_response beh404 true).posts := by
  constructor
  · decide
  · decide

/-- Claim C4 amended: each attempt of generate_response maps a backend
timeout to the Timeout error, a 404 to the ModelNotFound error, a 429 to
the RateLimited error and any other error status to a generic HTTP error,
with exactly one physical request (the transport never re-sends the POST on
a status response, because POST is not among the urllib3 idempotent allowed
methods); an unavailable service fails every attempt without a request; the
retry decorator retries on every failure, transient or not, waiting the
bounded exponential tenacity schedule, stops as soon as an attempt
succeeds, and after MAX_RETRIES failed attempts raises RetryError wrapping
the last typed error. -/
theorem C4_retry_amended (beh : Nat → Resp) (ctr c1 c2 : Nat) (s : String)
    (e : LLMError) :
    (beh ctr = .timeout → generateAttempt beh true ctr = (.error .timeout, ctr + 1))
    ∧ (beh ctr = .status 404 →
      generateAttempt beh true ctr = (.error .modelNotFound, ctr + 1))
    ∧ (beh ctr = .status 429 →
      generateAttempt beh true ctr = (.error .rateLimited, ctr + 1))
    ∧ (beh ctr = .status 500 →
      generateAttempt beh true ctr = (.error (.httpError 500), ctr + 1))
    ∧ (generate_response beh false
      = ⟨.retryError .unavailable, [tenacityWait 1, tenacityWait 2], 0⟩)
    ∧ ((∀ c, ∃ err, (generateAttempt beh true c).1 = .error err) →
      ∃ last posts, generate_response beh true
        = ⟨.retryError last, [tenacityWait 1, tenacityWait 2], posts⟩)
    ∧ (generateAttempt beh true 0 = (.error e, c1) →
      generateAttempt beh true c1 = (.ok s, c2) →
      generate_response beh true = ⟨.ok s, [tenacityWait 1], c2⟩)
    ∧ (∀ n, 4 ≤ tenacityWait n ∧ tenacityWait n ≤ 10
        ∧ tenacityWait n ≤ tenacityWait (n + 1)) := by
  refine ⟨?_, ?_, ?_, ?_, ?_, ?_, ?_, ?_⟩
  · intro h
    simp [generateAttempt, sessionRequest, MAX_RETRIES, h, sessionRetryable,
      URLLIB3_ALLOWED_METHODS]
  · intro h
    simp [generateAttempt, sessionRequest, MAX_RETRIES, h, sessionRetryable,
      URLLIB3_ALLOWED_METHODS]
  · intro h
    simp [generateAttempt, sessionRequest, MAX_RETRIES, h, sessionRetryable,
      URLLIB3_ALLOWED_METHODS]
  · intro h
    simp [generateAttempt, sessionRequest, MAX_RETRIES, h, sessionRetryable,
      URLLIB3_ALLOWED_METHODS]
  · rfl
  · intro hall
    obtain ⟨e0, h0⟩ := hall 0
    rcases hA0 : generateAttempt beh true 0 with ⟨r0, d0⟩
    rw [hA0] at h0
    simp at h0
    subst h0
    obtain ⟨e1, h1⟩ := hall d0
    rcases hA1 : generateAttempt beh true d0 with ⟨r1, d1⟩
    rw [hA1] at h1
    simp at h1
    subst h1
    obtain ⟨e2, h2⟩ := hall d1
    rcases hA2 : generateAttempt beh true d1 with ⟨r2, d2⟩
    rw [hA2] at h2
    simp at h2
    subst h2
    exact ⟨e2, d2, by simp [generate_response, generateLoop, MAX_RETRIES, hA0, hA1, hA2]⟩
  · intro h1 h2
    simp [generate_response, generateLoop, MAX_RETRIES, h1, h2]
  · intro n
    have hp : (4 : Nat) ≤ max 4 (2 ^ n) := le_max_left _ _
    have hpow : (2 : Nat) ^ n ≤ 2 ^ (n + 1) :=
      Nat.pow_le_pow_right (by norm_num) (Nat.le_succ n)
    refine ⟨?_, ?_, ?_⟩
    · exact le_min (by norm_num) hp
    · exact min_le_left _ _
    · exact min_le_min (le_refl 10) (max_le_max (le_refl 4) hpow)

/-- Concrete instances of claim C4 amended: the typed Timeout and
ModelNotFound mappings, exhaustion on persistent 500 responses with the
recorded exponential waits, and recovery after a single transient 500. -/
theorem C4_retry_amended_witness :
    generateAttempt behTimeout true 0 = (.error .timeout, 1)
    ∧ generateAttempt beh404 true 0 = (.error .modelNotFound, 1)
    ∧ (∃ last posts, generate_response beh500 true
        = ⟨.retryError last, [tenacityWait 1, tenacityWait 2], posts⟩)
    ∧ generate_response behRecover true = ⟨.ok ("hi"), [tenacityWait 1], 2⟩ :=
  ⟨(C4_retry_amended behTimeout 0 0 0 ("") .timeout).1 rfl,
   (C4_retry_amended beh404 0 0 0 ("") .timeout).2.1 rfl,
   (C4_retry_amended beh500 0 0 0 ("") .timeout).2.2.2.2.2.1
      (fun c => ⟨.httpError 500, rfl⟩),
   (C4_retry_amended behRecover 0 1 2 ("hi") (.httpError 500)).2.2.2.2.2.2.1
      (by decide) (by decide)⟩

/-- String append acts as list append on the underlying characters. -/
theorem strData_append (a b : String) : (a ++ b).data = a.data ++ b.data := by
  cases a; cases b; rfl

/-- String append adds lengths. -/
theorem strLength_append (a b : String) : (a ++ b).length = a.length + b.length := by
  cases a; cases b; simp [String.length, String.append]

/-- Unfolding of pyJoin on a list with at least two elements, stated for a
nonempty tail. -/
theorem pyJoin_cons_of_ne (sep a : String) (l : List String) (h : l ≠ []) :
    pyJoin sep (a :: l) = a ++ sep ++ pyJoin sep l := by
  cases l with
  | nil => exact absurd rfl h
  | cons b bs => rfl

/-- Replacing one element of a joined list changes only that contribution to
the total length. -/
theorem pyJoin_length_replace (sep x y : String) (A B : List String) :
    (pyJoin sep (A ++ x :: B)).length + y.length
      = (pyJoin sep (A ++ y :: B)).length + x.length := by
  induction A with
  | nil =>
    cases B with
    | nil => simp [pyJoin]; omega
    | cons b bs =>
      rw [List.nil_append, List.nil_append, pyJoin_cons_of_ne sep x _ (by simp),
        pyJoin_cons_of_ne sep y _ (by simp)]
      simp only [strLength_append]
      omega
  | cons a as ih =>
    rw [List.cons_append, List.cons_append,
      pyJoin_cons_of_ne sep a _ (by simp), pyJoin_cons_of_ne sep a _ (by simp)]
    simp only [strLength_append]
    omega

/-- Length of a nonnegative in-bounds Python slice. -/
theorem pyTakeInt_length (s : String) (k : Int) (h0 : 0 ≤ k)
    (hL : k ≤ (s.length : Int)) : (pyTakeInt s k).length = k.toNat := by
  have hk : ¬ k < 0 := by omega
  have hmax : max 0 (min ((s.length : Int)) k) = k := by omega
  have hlen : s.length = s.data.length := rfl
  simp only [pyTakeInt, hk, if_false, hmax, String.length, List.length_take]
  omega

/-- Appending the truncation marker always yields a nonempty string. -/
theorem append_marker_ne (x : String) : x ++ TRUNCATION_MARKER ≠ ("") := by
  intro h
  have h2 := congrArg String.length h
  rw [strLength_append] at h2
  have h3 : TRUNCATION_MARKER.length = 14 := rfl
  have h4 : ("" : String).length = 0 := rfl
  omega

/-- A character list never starts with a list whose head differs. -/
theorem isPrefixOf_cons_ne (a b : Char) (as bs : List Char)
    (h : (a == b) = false) :
    List.isPrefixOf (a :: as) (b :: bs) = false := by
  simp [List.isPrefixOf, h]

/-- Every list is a prefix of itself followed by anything. -/
theorem isPrefixOf_self_append (p t : List Char) :
    List.isPrefixOf p (p ++ t) = true := by
  induction p with
  | nil => simp [List.isPrefixOf]
  | cons a as ih => simp [List.isPrefixOf, ih]

/-- The System section never starts with the Relevant Documents header. -/
theorem pyStartsWith_system (s : String) :
    pyStartsWith (("System: ") ++ s) ("Relevant Documents:") = false := by
  unfold pyStartsWith
  have h1 : (("System: ") ++ s).data = ('S') :: (("ystem: ").data ++ s.data) := by
    cases s; rfl
  have h2 : ("Relevant Documents:").data = ('R') :: ("elevant Documents:").data := rfl
  rw [h1, h2]
  exact isPrefixOf_cons_ne _ _ _ _ (by decide)

/-- The User Profile section never starts with the Relevant Documents
header. -/
theorem pyStartsWith_user (s : String) :
    pyStartsWith (("User Profile: ") ++ s) ("Relevant Documents:") = false := by
  unfold pyStartsWith
  have h1 : (("User Profile: ") ++ s).data = ('U') :: (("ser Profile: ").data ++ s.data) := by
    cases s; rfl
  have h2 : ("Relevant Documents:").data = ('R') :: ("elevant Documents:").data := rfl
  rw [h1, h2]
  exact isPrefixOf_cons_ne _ _ _ _ (by decide)

/-- The Chat History section never starts with the Relevant Documents
header. -/
theorem pyStartsWith_hist (s : String) :
    pyStartsWith (("Chat History:\n") ++ s) ("Relevant Documents:") = false := by
  unfold pyStartsWith
  have h1 : (("Chat History:\n") ++ s).data = ('C') :: (("hat History:\n").data ++ s.data) := by
    cases s; rfl
  have h2 : ("Relevant Documents:").data = ('R') :: ("elevant Documents:").data := rfl
  rw [h1, h2]
  exact isPrefixOf_cons_ne _ _ _ _ (by decide)

/-- The Question section never starts with the Relevant Documents header. -/
theorem pyStartsWith_question (s : String) :
    pyStartsWith (("Question: ") ++ s) ("Relevant Documents:") = false := by
  unfold pyStartsWith
  have h1 : (("Question: ") ++ s).data = ('Q') :: (("uestion: ").data ++ s.data) := by
    cases s; rfl
  have h2 : ("Relevant Documents:").data = ('R') :: ("elevant Documents:").data := rfl
  rw [h1, h2]
  exact isPrefixOf_cons_ne _ _ _ _ (by decide)

/-- The Relevant Documents section does start with its own header. -/
theorem pyStartsWith_rd (s : String) :
    pyStartsWith (("Relevant Documents:\n") ++ s) ("Relevant Documents:") = true := by
  unfold pyStartsWith
  have h1 : (("Relevant Documents:\n") ++ s).data
      = ("Relevant Documents:").data ++ (('\n') :: s.data) := by
    cases s; rfl
  rw [h1]
  exact isPrefixOf_self_append _ _

/-- The Answer section never starts with the Relevant Documents header. -/
theorem pyStartsWith_answer :
    pyStartsWith ("Answer:") ("Relevant Documents:") = false := by decide

/-- No element of the optional sections starts with the Relevant Documents
header. -/
theorem optSections_no_rd (sysRaw : String) (uc : List (String × Option String))
    (ch : List ChatMsg) :
    ∀ x ∈ optSections sysRaw uc ch,
      pyStartsWith x ("Relevant Documents:") = false := by
  intro x hx
  unfold optSections at hx
  rcases List.mem_append.mp hx with h12 | h3
  · rcases List.mem_append.mp h12 with h1 | h2
    · split_ifs at h1
      · simp at h1
      · simp at h1
        subst h1
        exact pyStartsWith_system _
    · split_ifs at h2
      · simp at h2
      · simp at h2
      · simp at h2
        subst h2
        exact pyStartsWith_user _
  · split_ifs at h3
    · simp at h3
    · simp at h3
    · simp at h3
      subst h3
      exact pyStartsWith_hist _

/-- Shape of the section list when the documents text is nonempty. -/
theorem promptSections_docs (maxC : Nat) (sysRaw docsRaw qRaw : String)
    (uc : List (String × Option String)) (ch : List ChatMsg)
    (hne : truncateContext maxC (sanitize_input docsRaw) ≠ ("")) :
    promptSections maxC sysRaw docsRaw qRaw uc ch
      = optSections sysRaw uc ch
        ++ [("Relevant Documents:\n") ++ truncateContext maxC (sanitize_input docsRaw),
            ("Question: ") ++ sanitize_input qRaw, ("Answer:")] := by
  simp [promptSections, hne]

/-- Shape of the section list when the documents text is empty. -/
theorem promptSections_nodocs (maxC : Nat) (sysRaw docsRaw qRaw : String)
    (uc : List (String × Option String)) (ch : List ChatMsg)
    (heq : truncateContext maxC (sanitize_input docsRaw) = ("")) :
    promptSections maxC sysRaw docsRaw qRaw uc ch
      = optSections sysRaw uc ch
        ++ [("Question: ") ++ sanitize_input qRaw, ("Answer:")] := by
  simp [promptSections, heq]

/-- When the assembled prompt fits, or the documents text is not longer than
the excess, the final length check leaves the sections unchanged. -/
theorem buildSections_unchanged (maxC maxP : Nat) (sysRaw docsRaw qRaw : String)
    (uc : List (String × Option String)) (ch : List ChatMsg)
    (h : ¬ maxP < (pyJoin ("\n\n") (promptSections maxC sysRaw docsRaw qRaw uc ch)).length
      ∨ ¬ ((pyJoin ("\n\n") (promptSections maxC sysRaw docsRaw qRaw uc ch)).length - maxP
          < (truncateContext maxC (sanitize_input docsRaw)).length)) :
    buildSections maxC maxP sysRaw docsRaw qRaw uc ch
      = promptSections maxC sysRaw docsRaw qRaw uc ch := by
  simp only [buildSections]
  split_ifs with h1 h2
  · rcases h with h | h
    · exact absurd h1 h
    · exact absurd h2 h
  · rfl
  · rfl

/-- Filtering out the Relevant Documents section keeps all other
sections. -/
theorem filter_sections (optS : List String) (d q : String)
    (hopt : ∀ x ∈ optS, pyStartsWith x ("Relevant Documents:") = false) :
    (optS ++ [("Relevant Documents:\n") ++ d, ("Question: ") ++ q,
        ("Answer:")]).filter (fun s => !pyStartsWith s ("Relevant Documents:"))
      = optS ++ [("Question: ") ++ q, ("Answer:")] := by
  rw [List.filter_append]
  have h1 : optS.filter (fun s => !pyStartsWith s ("Relevant Documents:")) = optS := by
    rw [List.filter_eq_self]
    intro a ha
    simp [hopt a ha]
  rw [h1]
  simp [List.filter_cons, pyStartsWith_rd, pyStartsWith_question, pyStartsWith_answer]

/-- Inserting at position length minus two places the new section directly
before Question. -/
theorem pyInsertAt_before_two (optS : List String) (x q a : String) :
    pyInsertAt ((optS ++ [q, a]).length - 2) x (optS ++ [q, a])
      = optS ++ [x, q, a] := by
  unfold pyInsertAt
  have hlen : (optS ++ [q, a]).length - 2 = optS.length := by simp
  rw [hlen, List.take_left, List.drop_left]

/-- The over-length path of the final check: the Relevant Documents section
is replaced by its further-truncated version, in place, with every other
section kept. -/
theorem buildSections_over (maxC maxP : Nat) (sysRaw docsRaw qRaw : String)
    (uc : List (String × Option String)) (ch : List ChatMsg)
    (hover : maxP < (pyJoin ("\n\n") (promptSections maxC sysRaw docsRaw qRaw uc ch)).length)
    (hgt : (pyJoin ("\n\n") (promptSections maxC sysRaw docsRaw qRaw uc ch)).length - maxP
      < (truncateContext maxC (sanitize_input docsRaw)).length) :
    buildSections maxC maxP sysRaw docsRaw qRaw uc ch
      = optSections sysRaw uc ch
        ++ [("Relevant Documents:\n")
              ++ (pyTakeInt (truncateContext maxC (sanitize_input docsRaw))
                    (((truncateContext maxC (sanitize_input docsRaw)).length : Int)
                      - ((((pyJoin ("\n\n") (promptSections maxC sysRaw docsRaw qRaw uc ch)).length
                            - maxP : Nat) : Int))
                      - 100)
                  ++ TRUNCATION_MARKER),
            ("Question: ") ++ sanitize_input qRaw, ("Answer:")] := by
  have hne : truncateContext maxC (sanitize_input docsRaw) ≠ ("") := by
    intro h0
    rw [h0] at hgt
    have : (("") : String).length = 0 := rfl
    omega
  have hps := promptSections_docs maxC sysRaw docsRaw qRaw uc ch hne
  simp only [buildSections]
  rw [if_pos hover, if_pos hgt]
  rw [hps, filter_sections _ _ _ (optSections_no_rd sysRaw uc ch)]
  rw [pyInsertAt_before_two, ← hps]

/-- The optional sections agree with the head of the specification layout,
with the user and history texts gated on nonemptiness. -/
theorem optSections_eq_spec_heads (sysRaw : String)
    (uc : List (String × Option String)) (ch : List ChatMsg) :
    optSections sysRaw uc ch
      = (if sanitize_input sysRaw = ("") then []
          else [("System: ") ++ sanitize_input sysRaw])
        ++ (if (if uc = [] then ("") else format_user_context uc) = ("") then []
            else [("User Profile: ") ++ (if uc = [] then ("") else format_user_context uc)])
        ++ (if (if ch = [] then ("") else format_chat_history ch) = ("") then []
            else [("Chat History:\n") ++ (if ch = [] then ("") else format_chat_history ch)]) := by
  by_cases hu : uc = [] <;> by_cases hc : ch = [] <;> simp [optSections, hu, hc]

/-- A section list with a nonempty documents section matches the
specification layout. -/
theorem sections_spec_of_docs (sysRaw : String)
    (uc : List (String × Option String)) (ch : List ChatMsg) (d q : String)
    (hd : d ≠ ("")) :
    optSections sysRaw uc ch
        ++ [("Relevant Documents:\n") ++ d, ("Question: ") ++ q, ("Answer:")]
      = specSectionList (sanitize_input sysRaw)
          (if uc = [] then ("") else format_user_context uc)
          (if ch = [] then ("") else format_chat_history ch) d q := by
  rw [optSections_eq_spec_heads]
  simp [specSectionList, hd]

/-- A section list with no documents section matches the specification
layout with empty documents text. -/
theorem sections_spec_of_nodocs (sysRaw : String)
    (uc : List (String × Option String)) (ch : List ChatMsg) (q : String) :
    optSections sysRaw uc ch ++ [("Question: ") ++ q, ("Answer:")]
      = specSectionList (sanitize_input sysRaw)
          (if uc = [] then ("") else format_user_context uc)
          (if ch = [] then ("") else format_chat_history ch) ("") q := by
  rw [optSections_eq_spec_heads]
  simp [specSectionList]

/-- Claim C7 counterexample: with a nonempty system context and an empty
question input, the built section list still contains a Question section
(with empty content), so it is false that every section whose input is
empty is omitted entirely. -/
theorem C7_section_order_counterexample :
    buildSections 100 100 ("sys") ("") ("") [] []
      = [("System: sys"), ("Question: "), ("Answer:")]
    ∧ ("Question: ") ∈ buildSections 100 100 ("sys") ("") ("") [] []
    ∧ sanitize_input ("") = ("") := by
  refine ⟨by decide, by decide, by decide⟩

/-- Claim C7 amended: for every combination of inputs the built sections
follow the specification layout: fixed order System, User Profile, Chat
History, Relevant Documents, Question, Answer; the first four omitted
exactly when their processed text is empty (the documents text possibly
further truncated by the length check, which never empties it); Question
and Answer always present, even for an empty question input. -/
theorem C7_section_order_amended (maxC maxP : Nat) (sysRaw docsRaw qRaw : String)
    (uc : List (String × Option String)) (ch : List ChatMsg) :
    ∃ d, buildSections maxC maxP sysRaw docsRaw qRaw uc ch
        = specSectionList (sanitize_input sysRaw)
            (if uc = [] then ("") else format_user_context uc)
            (if ch = [] then ("") else format_chat_history ch)
            d (sanitize_input qRaw)
      ∧ (d = ("") ↔ truncateContext maxC (sanitize_input docsRaw) = ("")) := by
  by_cases hdocs : truncateContext maxC (sanitize_input docsRaw) = ("")
  · have hbs : buildSections maxC maxP sysRaw docsRaw qRaw uc ch
        = promptSections maxC sysRaw docsRaw qRaw uc ch := by
      apply buildSections_unchanged
      right
      rw [hdocs]
      intro hlt
      have h0 : (("") : String).length = 0 := rfl
      omega
    refine ⟨(""), ?_, by simp [hdocs]⟩
    rw [hbs, promptSections_nodocs maxC sysRaw docsRaw qRaw uc ch hdocs]
    exact sections_spec_of_nodocs sysRaw uc ch _
  · by_cases hover : maxP < (pyJoin ("\n\n") (promptSections maxC sysRaw docsRaw qRaw uc ch)).length
    · by_cases hgt : (pyJoin ("\n\n") (promptSections maxC sysRaw docsRaw qRaw uc ch)).length - maxP
          < (truncateContext maxC (sanitize_input docsRaw)).length
      · refine ⟨pyTakeInt (truncateContext maxC (sanitize_input docsRaw))
            (((truncateContext maxC (sanitize_input docsRaw)).length : Int)
              - ((((pyJoin ("\n\n") (promptSections maxC sysRaw docsRaw qRaw uc ch)).length
                    - maxP : Nat) : Int))
              - 100) ++ TRUNCATION_MARKER, ?_, ?_⟩
        · rw [buildSections_over maxC maxP sysRaw docsRaw qRaw uc ch hover hgt]
          exact sections_spec_of_docs sysRaw uc ch _ _ (append_marker_ne _)
        · constructor
          · intro h
            exact absurd h (append_marker_ne _)
          · intro h
            exact absurd h hdocs
      · refine ⟨truncateContext maxC (sanitize_input docsRaw), ?_, Iff.rfl⟩
        rw [buildSections_unchanged maxC maxP sysRaw docsRaw qRaw uc ch (Or.inr hgt),
          promptSections_docs maxC sysRaw docsRaw qRaw uc ch hdocs]
        exact sections_spec_of_docs sysRaw uc ch _ _ hdocs
    · refine ⟨truncateContext maxC (sanitize_input docsRaw), ?_, Iff.rfl⟩
      rw [buildSections_unchanged maxC maxP sysRaw docsRaw qRaw uc ch (Or.inl hover),
        promptSections_docs maxC sysRaw docsRaw qRaw uc ch hdocs]
      exact sections_spec_of_docs sysRaw uc ch _ _ hdocs

/-- Claim C6 counterexample: the assembled prompt exceeds the maximum
prompt length of 10 by 45 while the documents text has only 3 characters,
so the code truncates nothing: the prompt keeps its full Documents section
without any marker and stays over-length, refuting that the Documents
section is always truncated further to fit. -/
theorem C6_truncation_counterexample :
    build_prompt 100 10 ("") ("doc") ("hello world") [] []
      = ("Relevant Documents:\ndoc\n\nQuestion: hello world\n\nAnswer:")
    ∧ 10 < (build_prompt 100 10 ("") ("doc") ("hello world") [] []).length := by
  refine ⟨by decide, by decide⟩

/-- Claim C6 amended: for a clean documents input longer than
max_context_length, the Relevant Documents section of the built prompt ends
with the visible truncation marker while the Question and Answer sections
are untouched; and when the assembled prompt exceeds max_prompt_length by a
positive excess with the documents text at least excess + 100 characters
long, only the Relevant Documents section is truncated further (Python
slice plus marker) so that the final prompt fits: its length is exactly
max_prompt_length minus 86.  When the documents text is not longer than the
excess, nothing is truncated (counterexample above). -/
theorem C6_truncation_amended (maxC maxP excess : Nat)
    (sysRaw docsRaw qRaw : String)
    (uc : List (String × Option String)) (ch : List ChatMsg) :
    (sanitize_input docsRaw = docsRaw → maxC < docsRaw.length →
      ∃ stem, buildSections maxC maxP sysRaw docsRaw qRaw uc ch
        = optSections sysRaw uc ch
          ++ [("Relevant Documents:\n") ++ (stem ++ TRUNCATION_MARKER),
              ("Question: ") ++ sanitize_input qRaw, ("Answer:")])
    ∧ ((pyJoin ("\n\n") (promptSections maxC sysRaw docsRaw qRaw uc ch)).length
          = maxP + excess →
      0 < excess →
      excess + 100 ≤ (truncateContext maxC (sanitize_input docsRaw)).length →
      (build_prompt maxC maxP sysRaw docsRaw qRaw uc ch).length + 86 = maxP
      ∧ buildSections maxC maxP sysRaw docsRaw qRaw uc ch
          = optSections sysRaw uc ch
            ++ [("Relevant Documents:\n")
                  ++ (pyTakeInt (truncateContext maxC (sanitize_input docsRaw))
                        (((truncateContext maxC (sanitize_input docsRaw)).length : Int)
                          - (excess : Int) - 100)
                      ++ TRUNCATION_MARKER),
                ("Question: ") ++ sanitize_input qRaw, ("Answer:")]) := by
  constructor
  · intro hclean hlong
    have htr : truncateContext maxC (sanitize_input docsRaw)
        = String.mk (docsRaw.data.take maxC) ++ TRUNCATION_MARKER := by
      unfold truncateContext
      rw [hclean, if_pos hlong]
    have hne : truncateContext maxC (sanitize_input docsRaw) ≠ ("") := by
      rw [htr]
      exact append_marker_ne _
    by_cases hover : maxP < (pyJoin ("\n\n") (promptSections maxC sysRaw docsRaw qRaw uc ch)).length
    · by_cases hgt : (pyJoin ("\n\n") (promptSections maxC sysRaw docsRaw qRaw uc ch)).length - maxP
          < (truncateContext maxC (sanitize_input docsRaw)).length
      · exact ⟨_, buildSections_over maxC maxP sysRaw docsRaw qRaw uc ch hover hgt⟩
      · refine ⟨String.mk (docsRaw.data.take maxC), ?_⟩
        rw [buildSections_unchanged maxC maxP sysRaw docsRaw qRaw uc ch (Or.inr hgt),
          promptSections_docs maxC sysRaw docsRaw qRaw uc ch hne, htr]
    · refine ⟨String.mk (docsRaw.data.take maxC), ?_⟩
      rw [buildSections_unchanged maxC maxP sysRaw docsRaw qRaw uc ch (Or.inl hover),
        promptSections_docs maxC sysRaw docsRaw qRaw uc ch hne, htr]
  · intro hL hpos hge
    have hover : maxP < (pyJoin ("\n\n") (promptSections maxC sysRaw docsRaw qRaw uc ch)).length := by
      omega
    have hexc : (pyJoin ("\n\n") (promptSections maxC sysRaw docsRaw qRaw uc ch)).length - maxP
        = excess := by omega
    have hgt : (pyJoin ("\n\n") (promptSections maxC sysRaw docsRaw qRaw uc ch)).length - maxP
        < (truncateContext maxC (sanitize_input docsRaw)).length := by omega
    have hbs := buildSections_over maxC maxP sysRaw docsRaw qRaw uc ch hover hgt
    rw [hexc] at hbs
    have hne : truncateContext maxC (sanitize_input docsRaw) ≠ ("") := by
      intro h0
      rw [h0] at hge
      have h1 : (("") : String).length = 0 := rfl
      omega
    refine ⟨?_, hbs⟩
    have hk0 : (0 : Int) ≤ ((truncateContext maxC (sanitize_input docsRaw)).length : Int)
        - (excess : Int) - 100 := by
      omega
    have hkL : ((truncateContext maxC (sanitize_input docsRaw)).length : Int)
        - (excess : Int) - 100 ≤ ((truncateContext maxC (sanitize_input docsRaw)).length : Int) := by
      omega
    have hlen1 := pyTakeInt_length (truncateContext maxC (sanitize_input docsRaw))
      (((truncateContext maxC (sanitize_input docsRaw)).length : Int) - (excess : Int) - 100)
      hk0 hkL
    have hps := promptSections_docs maxC sysRaw docsRaw qRaw uc ch hne
    unfold build_prompt
    rw [hbs]
    have hrepl := pyJoin_length_replace ("\n\n")
      (("Relevant Documents:\n")
        ++ (pyTakeInt (truncateContext maxC (sanitize_input docsRaw))
              (((truncateContext maxC (sanitize_input docsRaw)).length : Int)
                - (excess : Int) - 100)
            ++ TRUNCATION_MARKER))
      (("Relevant Documents:\n") ++ truncateContext maxC (sanitize_input docsRaw))
      (optSections sysRaw uc ch)
      ([("Question: ") ++ sanitize_input qRaw, ("Answer:")])
    rw [← hps] at hrepl
    rw [hL] at hrepl
    have h20 : ("Relevant Documents:\n").length = 20 := rfl
    have h14 : TRUNCATION_MARKER.length = 14 := rfl
    rw [strLength_append, strLength_append, strLength_append, h20, h14, hlen1] at hrepl
    omega

set_option maxRecDepth 40000 in
/-- Concrete instances of claim C6 amended: a six character clean document
with max_context_length 3 is truncated with the marker; and a 200 character
document with max_prompt_length 150 (excess 92) is re-truncated so the
final prompt has length 64 = 150 - 86. -/
theorem C6_truncation_amended_witness :
    (∃ stem, buildSections 3 1000 ("") ("abcdef") ("q") [] []
        = optSections ("") [] []
          ++ [("Relevant Documents:\n") ++ (stem ++ TRUNCATION_MARKER),
              ("Question: ") ++ sanitize_input ("q"), ("Answer:")])
    ∧ ((build_prompt 1000 150 ("") docs200 ("q") [] []).length + 86 = 150
      ∧ buildSections 1000 150 ("") docs200 ("q") [] []
          = optSections ("") [] []
            ++ [("Relevant Documents:\n")
                  ++ (pyTakeInt (truncateContext 1000 (sanitize_input docs200))
                        (((truncateContext 1000 (sanitize_input docs200)).length : Int)
                          - ((92 : Nat) : Int) - 100)
                      ++ TRUNCATION_MARKER),
                ("Question: ") ++ sanitize_input ("q"), ("Answer:")]) :=
  ⟨(C6_truncation_amended 3 1000 0 ("") ("abcdef") ("q") [] []).1
      (by decide) (by decide),
   (C6_truncation_amended 1000 150 92 ("") docs200 ("q") [] []).2
      (by decide) (by decide) (by decide)⟩

/-- Claim C5 counterexample: two retrieved chunks from the same file a.txt
produce two source entries that both name a.txt, in the context sections
and propagated unchanged into the query result: the sources list is not
deduplicated by filename. -/
theorem C5_sources_dedup_counterexample :
    ((rag_query (fun _ => ("ans")) 16000 32000 dupDocs ("sys") [] []
        ("What is X?")).sources.map SourceEntry.filename)
      = [some ("a.txt"), some ("a.txt")]
    ∧ ¬ ((rag_query (fun _ => ("ans")) 16000 32000 dupDocs ("sys") [] []
        ("What is X?")).sources.map SourceEntry.filename).Nodup := by
  constructor
  · decide
  · decide

/-- Claim C5 amended: the sources list built by get_context_sections has
one entry per retrieved chunk in retrieval order, each retaining the chunk
source filename and the full per-chunk metadata for citation; duplicate
filenames are not removed; query propagates the list unchanged and reports
its length as num_sources. -/
theorem C5_sources_amended (llm : String → String) (maxC maxP : Nat)
    (retrieved : List RDoc) (systemCtx : String)
    (uc : List (String × Option String)) (ch : List ChatMsg)
    (question : String) :
    (rag_query llm maxC maxP retrieved systemCtx uc ch question).sources
      = (get_context_sections retrieved).sources
    ∧ (get_context_sections retrieved).sources.map SourceEntry.metadata
      = retrieved.map RDoc.metadata
    ∧ (get_context_sections retrieved).sources.map SourceEntry.filename
      = retrieved.map (fun d => metaGet d.metadata ("source"))
    ∧ (rag_query llm maxC maxP retrieved systemCtx uc ch question).num_sources
      = retrieved.length := by
  refine ⟨rfl, ?_, ?_, ?_⟩
  · simp [get_context_sections]
  · simp [get_context_sections]
  · simp [rag_query, get_context_sections]
